import Mathlib

/-!
# oVirt VM import validation: classification and condition aggregation

A shallow embedding of `pkg/providers/ovirt/validation/vm-import-validation.go`:
the severity table `checkToAction`, the loop `processFailures`, the two condition
builders `processValidationFailures` / `processMappingValidationFailures`, and the
orchestration in `validateMappings` / `Validate`.

Conventions of the embedding:

* Go pointers that the code dereferences (`mappings`, `vmiCrName`) are `Option`s and a
  dereference of `nil` is the error `Panic.nilPointerDereference`; functions that can
  reach such a dereference return `Except Panic _`.
* Go slices are `List`s, `append(a, b...)` is `a ++ b`.
* The `Validator` interface is a record of pure total functions.
* The logger is modelled in `processFailures` by recording the arguments of each
  `logger.Info` call; it never influences a returned value.
* The separator used by `utils.WithMessage` is not part of the sources at hand and is
  a parameter `sep` of every definition that reaches it.
-/

namespace VmImportValidation

/-! ## Severity tiers -/

/-- Go: `type action int`. -/
abbrev action := Int

/-- Go: `log = 0`. -/
def log : action := 0

/-- Go: `warn = 1`. -/
def warn : action := 1

/-- Go: `block = 2`. -/
def block : action := 2

/-- The check identifiers (`validators.CheckID`) that occur as keys of `checkToAction`.
Go rejects a map literal with two equal constant keys, so the named identifiers are
pairwise distinct; every other value of the type is `other`. -/
inductive CheckID where
  | NicInterfaceCheckID
  | NicOnBootID
  | NicPluggedID
  | NicVNicPortMirroringID
  | NicVNicCustomPropertiesID
  | NicVNicNetworkFilterID
  | NicVNicQosID
  | DiskAttachmentsExistID
  | DiskAttachmentInterfaceID
  | DiskAttachmentLogicalNameID
  | DiskAttachmentPassDiscardID
  | DiskAttachmentUsesScsiReservationID
  | DiskInterfaceID
  | DiskLogicalNameID
  | DiskUsesScsiReservationID
  | DiskBackupID
  | DiskLunStorageID
  | DiskPropagateErrorsID
  | DiskWipeAfterDeleteID
  | DiskStatusID
  | DiskStoragaTypeID
  | DiskSgioID
  | VMBiosBootMenuID
  | VMStatusID
  | VMBiosTypeID
  | VMBiosTypeQ35SecureBootID
  | VMCpuArchitectureID
  | VMCpuTuneID
  | VMCpuSharesID
  | VMCustomEmulatedMachine
  | VMCustomPropertiesID
  | VMDisplayTypeID
  | VMHasIllegalImagesID
  | VMHighAvailabilityPriorityID
  | VMIoThreadsID
  | VMMemoryPolicyBallooningID
  | VMMemoryPolicyOvercommitPercentID
  | VMMemoryPolicyGuaranteedID
  | VMMemoryTemplateLimitID
  | VMMigrationID
  | VMMigrationDowntimeID
  | VMNumaTuneModeID
  | VMOriginID
  | VMPlacementPolicyAffinityID
  | VMRngDeviceSourceID
  | VMSoundcardEnabledID
  | VMStartPausedID
  | VMStorageErrorResumeBehaviourID
  | VMTunnelMigrationID
  | VMUsbID
  | VMGraphicConsolesID
  | VMHostDevicesID
  | VMReportedDevicesID
  | VMQuotaID
  | VMWatchdogsID
  | VMCdromsID
  | VMFloppiesID
  | VMTimezoneID
  | NetworkConfig
  | NetworkTargetID
  | NetworkMappingID
  | NetworkMultiplePodTargetsID
  | NetworkTypeID
  | StorageTargetID
  | DiskTargetID
  | StorageTargetDefaultClass
  | other (name : String)

/-- Go: `var checkToAction = map[validators.CheckID]action{...}`; `none` is a missing key. -/
def checkToAction : CheckID → Option action
  -- NIC rules
  | .NicInterfaceCheckID => some block
  | .NicOnBootID => some log
  | .NicPluggedID => some warn
  | .NicVNicPortMirroringID => some warn
  | .NicVNicCustomPropertiesID => some warn
  | .NicVNicNetworkFilterID => some warn
  | .NicVNicQosID => some log
  -- Storage rules
  | .DiskAttachmentsExistID => some block
  | .DiskAttachmentInterfaceID => some block
  | .DiskAttachmentLogicalNameID => some log
  | .DiskAttachmentPassDiscardID => some log
  | .DiskAttachmentUsesScsiReservationID => some block
  | .DiskInterfaceID => some block
  | .DiskLogicalNameID => some log
  | .DiskUsesScsiReservationID => some block
  | .DiskBackupID => some warn
  | .DiskLunStorageID => some block
  | .DiskPropagateErrorsID => some log
  | .DiskWipeAfterDeleteID => some log
  | .DiskStatusID => some block
  | .DiskStoragaTypeID => some block
  | .DiskSgioID => some block
  -- VM rules
  | .VMBiosBootMenuID => some log
  | .VMStatusID => some block
  | .VMBiosTypeID => some block
  | .VMBiosTypeQ35SecureBootID => some warn
  | .VMCpuArchitectureID => some block
  | .VMCpuTuneID => some warn
  | .VMCpuSharesID => some log
  | .VMCustomEmulatedMachine => some log
  | .VMCustomPropertiesID => some warn
  | .VMDisplayTypeID => some log
  | .VMHasIllegalImagesID => some block
  | .VMHighAvailabilityPriorityID => some log
  | .VMIoThreadsID => some warn
  | .VMMemoryPolicyBallooningID => some log
  | .VMMemoryPolicyOvercommitPercentID => some log
  | .VMMemoryPolicyGuaranteedID => some log
  | .VMMemoryTemplateLimitID => some block
  | .VMMigrationID => some log
  | .VMMigrationDowntimeID => some log
  | .VMNumaTuneModeID => some warn
  | .VMOriginID => some block
  | .VMPlacementPolicyAffinityID => some block
  | .VMRngDeviceSourceID => some log
  | .VMSoundcardEnabledID => some warn
  | .VMStartPausedID => some log
  | .VMStorageErrorResumeBehaviourID => some log
  | .VMTunnelMigrationID => some warn
  | .VMUsbID => some block
  | .VMGraphicConsolesID => some log
  | .VMHostDevicesID => some log
  | .VMReportedDevicesID => some log
  | .VMQuotaID => some log
  | .VMWatchdogsID => some block
  | .VMCdromsID => some log
  | .VMFloppiesID => some log
  | .VMTimezoneID => some block
  -- Network mapping validation
  | .NetworkConfig => some block
  | .NetworkTargetID => some block
  | .NetworkMappingID => some block
  | .NetworkMultiplePodTargetsID => some block
  | .NetworkTypeID => some block
  -- Storage mapping validation
  | .StorageTargetID => some block
  | .DiskTargetID => some block
  | .StorageTargetDefaultClass => some warn
  | .other _ => none

/-- Go: the index expression `checkToAction[id]`, which yields the zero value `0` of
`action` for a key that is not in the map. -/
def checkToActionAt (id : CheckID) : action :=
  (checkToAction id).getD 0

/-! ## Failures, names and conditions -/

/-- Go: `validators.ValidationFailure`, used here through `.ID` and `.Message`. -/
structure ValidationFailure where
  ID : CheckID
  Message : String

/-- Go: `types.NamespacedName`. -/
structure NamespacedName where
  Namespace : String
  Name : String
deriving DecidableEq

/-- Go: `v2vv1.VirtualMachineImportConditionType`, the two values used by the validation. -/
inductive VirtualMachineImportConditionType where
  | Valid
  | MappingRulesVerified
deriving DecidableEq

/-- Go: the condition reasons of `v2vv1` named by the validation; their string values
are declared outside the sources at hand, so they are kept symbolic. -/
inductive VirtualMachineImportConditionReason where
  | MappingRulesVerificationReportedWarnings
  | MappingRulesVerificationFailed
  | MappingRulesVerificationCompleted
  | IncompleteMappingRules
  | ValidationReportedWarnings
  | ValidationCompleted
deriving DecidableEq

/-- Go: `warnReason = string(v2vv1.MappingRulesVerificationReportedWarnings)`. -/
def warnReason : VirtualMachineImportConditionReason :=
  .MappingRulesVerificationReportedWarnings

/-- Go: `errorReason = string(v2vv1.MappingRulesVerificationFailed)`. -/
def errorReason : VirtualMachineImportConditionReason :=
  .MappingRulesVerificationFailed

/-- Go: `okReason = string(v2vv1.MappingRulesVerificationCompleted)`. -/
def okReason : VirtualMachineImportConditionReason :=
  .MappingRulesVerificationCompleted

/-- Go: `incompleteMappingRulesReason = string(v2vv1.IncompleteMappingRules)`. -/
def incompleteMappingRulesReason : VirtualMachineImportConditionReason :=
  .IncompleteMappingRules

/-- Go: `validationReportedWarningsReason = string(v2vv1.ValidationReportedWarnings)`. -/
def validationReportedWarningsReason : VirtualMachineImportConditionReason :=
  .ValidationReportedWarnings

/-- Go: `validationCompletedReason = string(v2vv1.ValidationCompleted)`. -/
def validationCompletedReason : VirtualMachineImportConditionReason :=
  .ValidationCompleted

/-- Go: `v1.ConditionStatus` of the Kubernetes core API. -/
inductive ConditionStatus where
  | ConditionTrue
  | ConditionFalse
  | ConditionUnknown
deriving DecidableEq

/-- Go: `v2vv1.VirtualMachineImportCondition`, with the four components the spec gives
a status condition: type, reason, message and status. -/
structure VirtualMachineImportCondition where
  Typ : VirtualMachineImportConditionType
  Reason : VirtualMachineImportConditionReason
  Message : String
  Status : ConditionStatus
deriving DecidableEq

/-- Modelled from the spec: `conditions.NewCondition` is not among the sources; the spec
describes a status condition as the record of type, reason, message and status, which
is what the four arguments at every call site are. -/
def NewCondition (conditionType : VirtualMachineImportConditionType)
    (reason : VirtualMachineImportConditionReason) (message : String)
    (status : ConditionStatus) : VirtualMachineImportCondition :=
  { Typ := conditionType, Reason := reason, Message := message, Status := status }

/-- Modelled from the spec: `utils.WithMessage` is not among the sources. The spec
describes an ordered-append helper whose zero value is the empty string with no
separator (the first failure has no leading separator) and which otherwise
concatenates the text so far, a fixed separator and the new text. -/
def WithMessage (sep : String) (message newMessage : String) : String :=
  if message = "" then newMessage else message ++ sep ++ newMessage

/-! ## The classification loop -/

/-- The arguments of one `logger.Info(fmt.Sprintf("Validation information for %v: %v",
vmiCrName, failure))` call. -/
structure LogEntry where
  vmiCrName : Option NamespacedName
  failure : ValidationFailure

/-- The variables of the loop in `processFailures`, together with the log lines emitted
so far. -/
structure ProcessState where
  logged : List LogEntry
  warnMessage : String
  errorMessage : String

/-- Go: the body of `for _, failure := range failures` in `processFailures`, a `switch`
on `checkToAction[failure.ID]` with the cases `log`, `warn`, `block` and no default. -/
def processFailure (sep : String) (vmiCrName : Option NamespacedName)
    (st : ProcessState) (failure : ValidationFailure) : ProcessState :=
  if checkToActionAt failure.ID = log then
    { st with logged := st.logged ++ [{ vmiCrName := vmiCrName, failure := failure }] }
  else if checkToActionAt failure.ID = warn then
    { st with warnMessage := WithMessage sep st.warnMessage failure.Message }
  else if checkToActionAt failure.ID = block then
    { st with errorMessage := WithMessage sep st.errorMessage failure.Message }
  else
    st

/-- Go: `processFailures`; the returned pair is `(.warnMessage, .errorMessage)`. -/
def processFailures (sep : String) (failures : List ValidationFailure)
    (vmiCrName : Option NamespacedName) : ProcessState :=
  failures.foldl (processFailure sep vmiCrName)
    { logged := [], warnMessage := "", errorMessage := "" }

/-- Go: `processMappingValidationFailures`. -/
def processMappingValidationFailures (sep : String) (failures : List ValidationFailure)
    (vmiCrName : Option NamespacedName) : VirtualMachineImportCondition :=
  let r := processFailures sep failures vmiCrName
  if r.errorMessage ≠ "" then
    NewCondition .Valid incompleteMappingRulesReason r.errorMessage .ConditionFalse
  else if r.warnMessage ≠ "" then
    NewCondition .Valid validationReportedWarningsReason r.warnMessage .ConditionTrue
  else
    NewCondition .Valid validationCompletedReason "Validation completed successfully"
      .ConditionTrue

/-- Go: `processValidationFailures`. -/
def processValidationFailures (sep : String) (failures : List ValidationFailure)
    (vmiCrName : Option NamespacedName) : VirtualMachineImportCondition :=
  let r := processFailures sep failures vmiCrName
  if r.errorMessage ≠ "" then
    NewCondition .MappingRulesVerified errorReason r.errorMessage .ConditionFalse
  else if r.warnMessage ≠ "" then
    NewCondition .MappingRulesVerified warnReason r.warnMessage .ConditionTrue
  else
    NewCondition .MappingRulesVerified okReason "All mapping rules checks passed"
      .ConditionTrue

/-! ## The oVirt SDK objects and the mapping configuration -/

/-- Go: `ovirtsdk.Nic`, an object of the external oVirt SDK, kept as a handle. -/
structure Nic where
  id : String
deriving DecidableEq

/-- Go: `ovirtsdk.DiskAttachment`, an object of the external oVirt SDK, kept as a handle. -/
structure DiskAttachment where
  id : String
deriving DecidableEq

/-- Go: `ovirtsdk.Vm`, as far as the validation reads it: the optional NIC collection,
the optional disk-attachment collection, and the remaining attributes, which only the
validators inspect. -/
structure Vm where
  attributes : List (String × String)
  nics : Option (List Nic)
  diskAttachments : Option (List DiskAttachment)
deriving DecidableEq

/-- Go: `nics, ok := vm.Nics()` followed by `nics.Slice()`; `none` is `ok == false`. -/
def Vm.Nics (vm : Vm) : Option (List Nic) := vm.nics

/-- Go: `das, ok := vm.DiskAttachments()` followed by `das.Slice()`. -/
def Vm.DiskAttachments (vm : Vm) : Option (List DiskAttachment) := vm.diskAttachments

/-- Go: `otemplates.TemplateFinder`, only handed on to `ValidateVM`. -/
structure TemplateFinder where
  id : String
deriving DecidableEq

/-- Go: the source side of a mapping item, by identifier or by name. -/
structure Source where
  Name : Option String
  ID : Option String
deriving DecidableEq

/-- Go: the target side of a mapping item. -/
structure ObjectIdentifier where
  Name : String
deriving DecidableEq

/-- Go: `v2vv1.NetworkResourceMappingItem`. -/
structure NetworkResourceMappingItem where
  Source : Source
  Target : ObjectIdentifier
deriving DecidableEq

/-- Go: `v2vv1.StorageResourceMappingItem`. -/
structure StorageResourceMappingItem where
  Source : Source
  Target : ObjectIdentifier
deriving DecidableEq

/-- Go: `v2vv1.OvirtMappings`; each field is a pointer to a slice. -/
structure OvirtMappings where
  NetworkMappings : Option (List NetworkResourceMappingItem)
  StorageMappings : Option (List StorageResourceMappingItem)
  DiskMappings : Option (List StorageResourceMappingItem)
deriving DecidableEq

/-- Go: `type Validator interface`. -/
structure Validator where
  ValidateVM : Vm → TemplateFinder → List ValidationFailure
  ValidateDiskStatus : DiskAttachment → Bool
  ValidateDiskAttachments : List DiskAttachment → List ValidationFailure
  ValidateNics : List Nic → List ValidationFailure
  ValidateNetworkMapping : List Nic → Option (List NetworkResourceMappingItem) → String →
    List ValidationFailure
  ValidateStorageMapping : List DiskAttachment → Option (List StorageResourceMappingItem) →
    Option (List StorageResourceMappingItem) → List ValidationFailure

/-- Go: `type VirtualMachineImportValidator struct`. -/
structure VirtualMachineImportValidator where
  Validator : Validator

/-- Go: `NewVirtualMachineImportValidator`. -/
def NewVirtualMachineImportValidator (validator : Validator) : VirtualMachineImportValidator :=
  { Validator := validator }

/-! ## Orchestration -/

/-- A run-time panic of the Go program. -/
inductive Panic where
  | nilPointerDereference
deriving DecidableEq

/-- Reading a field through a Go pointer: a `nil` pointer panics. -/
def deref {α : Type} : Option α → Except Panic α
  | some a => .ok a
  | none => .error .nilPointerDereference

/-- Go: `validateMappings`. The arguments of each validator call are evaluated, with
their dereferences of `mappings` and `vmiCrName`, before the call. -/
def validateMappings (sep : String) (validator : VirtualMachineImportValidator) (vm : Vm)
    (mappings : Option OvirtMappings) (vmiCrName : Option NamespacedName) :
    Except Panic VirtualMachineImportCondition := do
  let mut failures : List ValidationFailure := []
  if let some nSlice := vm.Nics then
    let m ← deref mappings
    let n ← deref vmiCrName
    failures := failures ++
      validator.Validator.ValidateNetworkMapping nSlice m.NetworkMappings n.Namespace
  if let some das := vm.DiskAttachments then
    let m ← deref mappings
    failures := failures ++
      validator.Validator.ValidateStorageMapping das m.StorageMappings m.DiskMappings
  return processMappingValidationFailures sep failures vmiCrName

/-- Go: `Validate`. -/
def Validate (sep : String) (validator : VirtualMachineImportValidator) (vm : Vm)
    (vmiCrName : Option NamespacedName) (mappings : Option OvirtMappings)
    (finder : TemplateFinder) : Except Panic (List VirtualMachineImportCondition) := do
  let mut validationResults : List VirtualMachineImportCondition := []
  let mappingsCheckResult ← validateMappings sep validator vm mappings vmiCrName
  validationResults := validationResults ++ [mappingsCheckResult]
  let mut failures := validator.Validator.ValidateVM vm finder
  if let some nics := vm.Nics then
    failures := failures ++ validator.Validator.ValidateNics nics
  if let some das := vm.DiskAttachments then
    failures := failures ++ validator.Validator.ValidateDiskAttachments das
  let rulesCheckResult := processValidationFailures sep failures vmiCrName
  validationResults := validationResults ++ [rulesCheckResult]
  return validationResults

/-! ## Vocabulary of the statements -/

/-- The failures of a list that `checkToAction` puts in tier `a`, in list order. -/
def tierFailures (a : action) (fs : List ValidationFailure) : List ValidationFailure :=
  fs.filter (fun f => decide (checkToActionAt f.ID = a))

/-- The messages of the failures of tier `a`, in list order. -/
def tierMessages (a : action) (fs : List ValidationFailure) : List String :=
  (tierFailures a fs).map (fun f => f.Message)

/-- A list of messages without its leading empty messages. -/
def dropEmptyHead (msgs : List String) : List String :=
  msgs.dropWhile (fun m => decide (m = ""))

/-- The failures of a list that `checkToAction` does not put in tier `a`, in list order. -/
def withoutTier (a : action) (fs : List ValidationFailure) : List ValidationFailure :=
  fs.filter (fun f => decide (checkToActionAt f.ID ≠ a))

/-- The failures of a list whose identifier is a key of `checkToAction`, in list order. -/
def mappedFailures (fs : List ValidationFailure) : List ValidationFailure :=
  fs.filter (fun f => (checkToAction f.ID).isSome)

/-- The text `m` occurs in the text `s`. -/
def Occurs (m s : String) : Prop :=
  ∃ pre post : String, s = pre ++ m ++ post

/-- The failures `Validate` hands to `processValidationFailures`: the output of
`ValidateVM`, then that of `ValidateNics` when the VM has a NIC collection, then that of
`ValidateDiskAttachments` when it has a disk-attachment collection. -/
def ruleFailures (V : Validator) (vm : Vm) (finder : TemplateFinder) :
    List ValidationFailure :=
  V.ValidateVM vm finder ++
    (match vm.Nics with
      | some nics => V.ValidateNics nics
      | none => []) ++
    (match vm.DiskAttachments with
      | some das => V.ValidateDiskAttachments das
      | none => [])

/-- The outputs of the mapping validators for the calls `validateMappings` makes: that
of `ValidateNetworkMapping` when the VM has a NIC collection, then that of
`ValidateStorageMapping` when it has a disk-attachment collection (nothing for a call
whose arguments cannot be read). -/
def mappingFailures (V : Validator) (vm : Vm) (mappings : Option OvirtMappings)
    (vmiCrName : Option NamespacedName) : List ValidationFailure :=
  (match vm.Nics, mappings, vmiCrName with
    | some nics, some m, some n => V.ValidateNetworkMapping nics m.NetworkMappings n.Namespace
    | _, _, _ => []) ++
  (match vm.DiskAttachments, mappings with
    | some das, some m => V.ValidateStorageMapping das m.StorageMappings m.DiskMappings
    | _, _ => [])

/-- The inputs on which `Validate` reads no field through a `nil` pointer: a VM with a
NIC collection needs the mapping configuration and the name, a VM with a
disk-attachment collection needs the mapping configuration. -/
def pointersPresent (vm : Vm) (vmiCrName : Option NamespacedName)
    (mappings : Option OvirtMappings) : Prop :=
  (vm.Nics = none ∨ (mappings ≠ none ∧ vmiCrName ≠ none)) ∧
    (vm.DiskAttachments = none ∨ mappings ≠ none)

instance (vm : Vm) (vmiCrName : Option NamespacedName) (mappings : Option OvirtMappings) :
    Decidable (pointersPresent vm vmiCrName mappings) := by
  unfold pointersPresent
  infer_instance

/-! ## Sample inputs -/

/-- A mapping-failure list with the multiple-pod-targets failure among a warn-tier and
another block-tier failure. -/
def sampleMappingFailures : List ValidationFailure :=
  [⟨CheckID.StorageTargetDefaultClass, "default storage class"⟩,
    ⟨CheckID.NetworkTargetID, "no target"⟩,
    ⟨CheckID.NetworkMultiplePodTargetsID, "two pod networks"⟩]

/-- A validator without findings. -/
def silentValidator : Validator :=
  { ValidateVM := fun _ _ => []
    ValidateDiskStatus := fun _ => true
    ValidateDiskAttachments := fun _ => []
    ValidateNics := fun _ => []
    ValidateNetworkMapping := fun _ _ _ => []
    ValidateStorageMapping := fun _ _ _ => [] }

/-- A validator whose network-mapping check reads the namespace it is given: it
reports a missing target network in every namespace but "tenant". -/
def namespaceValidator : Validator :=
  { silentValidator with
    ValidateNetworkMapping := fun _ _ crNamespace =>
      if crNamespace = "tenant" then [] else [⟨CheckID.NetworkTargetID, "no target"⟩] }

/-- A validator with a blocking rule finding and a storage-mapping warning. -/
def findingValidator : Validator :=
  { silentValidator with
    ValidateVM := fun _ _ => [⟨CheckID.VMStatusID, "vm is up"⟩]
    ValidateStorageMapping := fun _ _ _ =>
      [⟨CheckID.StorageTargetDefaultClass, "default storage class"⟩] }

/-- A VM with one NIC and one disk attachment. -/
def sampleVm : Vm :=
  { attributes := [], nics := some [⟨"nic1"⟩], diskAttachments := some [⟨"disk1"⟩] }

/-- A VM without a NIC collection and with one disk attachment. -/
def diskOnlyVm : Vm :=
  { attributes := [], nics := none, diskAttachments := some [⟨"disk1"⟩] }

/-- A VM with neither collection. -/
def bareVm : Vm :=
  { attributes := [], nics := none, diskAttachments := none }

/-- A mapping configuration without entries. -/
def emptyMappings : OvirtMappings :=
  { NetworkMappings := none, StorageMappings := none, DiskMappings := none }

/-- A rule-failure list with a warn-tier failure between two block-tier failures and a
log-tier failure at the end. -/
def sampleRuleFailures : List ValidationFailure :=
  [⟨CheckID.VMStatusID, "vm is up"⟩, ⟨CheckID.NicPluggedID, "nic unplugged"⟩,
    ⟨CheckID.DiskSgioID, "sgio"⟩, ⟨CheckID.VMQuotaID, "quota"⟩]

/-- A failure list with two warn-tier failures around a log-tier failure. -/
def sampleWarnFailures : List ValidationFailure :=
  [⟨CheckID.NicPluggedID, "nic unplugged"⟩, ⟨CheckID.VMCpuSharesID, "cpu shares"⟩,
    ⟨CheckID.VMIoThreadsID, "io threads"⟩]

/-- A failure list with log-tier failures only. -/
def sampleLogFailures : List ValidationFailure :=
  [⟨CheckID.NicOnBootID, "on boot"⟩, ⟨CheckID.VMQuotaID, "quota"⟩]

/-- A rule-failure list with a warn-tier VM-level failure, a warn-tier NIC-level failure
and a disk attachment that uses a SCSI reservation. -/
def sampleScsiFailures : List ValidationFailure :=
  [⟨CheckID.VMCpuTuneID, "cpu tune"⟩, ⟨CheckID.NicPluggedID, "nic unplugged"⟩,
    ⟨CheckID.DiskAttachmentUsesScsiReservationID, "scsi reservation"⟩]

/-- A mapping-failure list of a disk without storage mapping: the default storage class
is reported twice, the first time without a message. -/
def sampleDefaultClassFailures : List ValidationFailure :=
  [⟨CheckID.StorageTargetDefaultClass, ""⟩,
    ⟨CheckID.StorageTargetDefaultClass, "default storage class"⟩]

/-- A failure list with an identifier that is not a key of `checkToAction` before a
warn-tier and a block-tier failure. -/
def sampleUnmappedFailures : List ValidationFailure :=
  [⟨CheckID.other "vm.custom", "custom check"⟩, ⟨CheckID.NicPluggedID, "nic unplugged"⟩,
    ⟨CheckID.VMStatusID, "vm is up"⟩]

/-- A validator that reports one block-tier failure for the VM, one for its NICs and
one for its disk attachments, and one for each of the two mappings. -/
def orderedValidator : Validator :=
  { ValidateVM := fun _ _ => [⟨CheckID.VMStatusID, "vm is up"⟩]
    ValidateDiskStatus := fun _ => true
    ValidateDiskAttachments := fun _ => [⟨CheckID.DiskSgioID, "sgio"⟩]
    ValidateNics := fun _ => [⟨CheckID.NicInterfaceCheckID, "nic interface"⟩]
    ValidateNetworkMapping := fun _ _ _ => [⟨CheckID.NetworkTargetID, "no target"⟩]
    ValidateStorageMapping := fun _ _ _ => [⟨CheckID.StorageTargetID, "no storage"⟩] }


open VirtualMachineImportConditionType VirtualMachineImportConditionReason ConditionStatus

/-! ## Texts and the ordered append -/

theorem checkToActionAt_cases (id : CheckID) :
    checkToActionAt id = log ∨ checkToActionAt id = warn ∨ checkToActionAt id = block := by
  cases id <;> simp [checkToActionAt, checkToAction, log, warn, block]

theorem string_append_eq_empty (a b : String) : a ++ b = "" ↔ a = "" ∧ b = "" := by
  simp [String.ext_iff]

theorem WithMessage_empty_left (sep n : String) : WithMessage sep "" n = n := by
  simp [WithMessage]

theorem WithMessage_of_ne (sep m n : String) (h : m ≠ "") :
    WithMessage sep m n = m ++ sep ++ n := by
  simp [WithMessage, h]

theorem WithMessage_ne_empty (sep m n : String) (h : m ≠ "") : WithMessage sep m n ≠ "" := by
  rw [WithMessage_of_ne sep m n h]
  intro hc
  rw [string_append_eq_empty, string_append_eq_empty] at hc
  exact h hc.1.1

theorem foldl_WithMessage_ne_empty (sep : String) (msgs : List String) :
    ∀ acc : String, acc ≠ "" → msgs.foldl (WithMessage sep) acc ≠ "" := by
  induction msgs with
  | nil => intro acc h; simpa using h
  | cons m ms ih =>
    intro acc h
    simp only [List.foldl_cons]
    exact ih _ (WithMessage_ne_empty sep acc m h)

theorem foldl_WithMessage_of_ne (sep : String) (msgs : List String) :
    ∀ acc : String, acc ≠ "" →
      msgs.foldl (WithMessage sep) acc = String.intercalate.go acc sep msgs := by
  induction msgs with
  | nil => intro acc _; simp [String.intercalate.go]
  | cons m ms ih =>
    intro acc h
    simp only [List.foldl_cons, String.intercalate.go]
    rw [ih _ (WithMessage_ne_empty sep acc m h), WithMessage_of_ne sep acc m h]

theorem foldl_WithMessage_empty (sep : String) (msgs : List String) :
    msgs.foldl (WithMessage sep) "" = String.intercalate sep (dropEmptyHead msgs) := by
  induction msgs with
  | nil => simp [dropEmptyHead, String.intercalate]
  | cons m ms ih =>
    by_cases hm : m = ""
    · subst hm
      simpa [dropEmptyHead, WithMessage_empty_left] using ih
    · simp only [List.foldl_cons, WithMessage_empty_left]
      rw [foldl_WithMessage_of_ne sep ms m hm]
      simp [dropEmptyHead, List.dropWhile, hm, String.intercalate]

theorem foldl_WithMessage_eq_empty (sep : String) (msgs : List String) :
    msgs.foldl (WithMessage sep) "" = "" ↔ ∀ m ∈ msgs, m = "" := by
  induction msgs with
  | nil => simp
  | cons m ms ih =>
    by_cases hm : m = ""
    · subst hm
      simpa [WithMessage_empty_left] using ih
    · simp only [List.foldl_cons, WithMessage_empty_left]
      constructor
      · intro h; exact absurd h (foldl_WithMessage_ne_empty sep ms m hm)
      · intro h; exact absurd (h m (List.mem_cons_self _ _)) hm

theorem Occurs_WithMessage_new (sep acc m : String) : Occurs m (WithMessage sep acc m) := by
  by_cases h : acc = ""
  · subst h
    exact ⟨"", "", by simp [WithMessage_empty_left]⟩
  · exact ⟨acc ++ sep, "", by simp [WithMessage_of_ne sep acc m h, String.append_assoc]⟩

theorem Occurs_WithMessage_old (sep acc m n : String) (h : Occurs m acc) :
    Occurs m (WithMessage sep acc n) := by
  obtain ⟨pre, post, rfl⟩ := h
  by_cases hacc : pre ++ m ++ post = ""
  · rw [hacc, WithMessage_empty_left]
    rw [string_append_eq_empty, string_append_eq_empty] at hacc
    obtain ⟨⟨_, hm⟩, _⟩ := hacc
    subst hm
    exact ⟨"", n, by simp⟩
  · exact ⟨pre, post ++ sep ++ n, by
      rw [WithMessage_of_ne sep _ n hacc]
      simp [String.append_assoc]⟩

theorem Occurs_foldl_of_acc (sep : String) (m : String) (msgs : List String) :
    ∀ acc : String, Occurs m acc → Occurs m (msgs.foldl (WithMessage sep) acc) := by
  induction msgs with
  | nil => intro acc h; simpa using h
  | cons x xs ih =>
    intro acc h
    simp only [List.foldl_cons]
    exact ih _ (Occurs_WithMessage_old sep acc m x h)

theorem Occurs_foldl_of_mem (sep : String) (m : String) (msgs : List String) :
    ∀ acc : String, m ∈ msgs → Occurs m (msgs.foldl (WithMessage sep) acc) := by
  induction msgs with
  | nil => intro acc h; simp at h
  | cons x xs ih =>
    intro acc h
    simp only [List.foldl_cons]
    rcases List.mem_cons.mp h with rfl | h
    · exact Occurs_foldl_of_acc sep _ xs _ (Occurs_WithMessage_new sep acc _)
    · exact ih _ h

theorem foldl_WithMessage_starts (sep : String) (msgs : List String) :
    ∀ acc : String, acc ≠ "" → ∃ post : String, msgs.foldl (WithMessage sep) acc = acc ++ post := by
  induction msgs with
  | nil => intro acc _; exact ⟨"", by simp⟩
  | cons m ms ih =>
    intro acc h
    obtain ⟨post, hp⟩ := ih _ (WithMessage_ne_empty sep acc m h)
    refine ⟨sep ++ m ++ post, ?_⟩
    simp only [List.foldl_cons]
    rw [hp, WithMessage_of_ne sep acc m h]
    simp [String.append_assoc]

theorem foldl_WithMessage_cons_starts (sep m : String) (ms : List String) :
    ∃ post : String, (m :: ms).foldl (WithMessage sep) "" = m ++ post := by
  by_cases hm : m = ""
  · subst hm
    exact ⟨_, (String.empty_append _).symm⟩
  · simpa [WithMessage_empty_left] using foldl_WithMessage_starts sep ms m hm

/-! ## The loop of `processFailures`, component by component -/

theorem processFailure_log (sep : String) (n : Option NamespacedName) (st : ProcessState)
    (f : ValidationFailure) (h : checkToActionAt f.ID = log) :
    processFailure sep n st f =
      { st with logged := st.logged ++ [{ vmiCrName := n, failure := f }] } := by
  simp [processFailure, h]

theorem processFailure_warn (sep : String) (n : Option NamespacedName) (st : ProcessState)
    (f : ValidationFailure) (h : checkToActionAt f.ID = warn) :
    processFailure sep n st f =
      { st with warnMessage := WithMessage sep st.warnMessage f.Message } := by
  simp [processFailure, h, warn, log]

theorem processFailure_block (sep : String) (n : Option NamespacedName) (st : ProcessState)
    (f : ValidationFailure) (h : checkToActionAt f.ID = block) :
    processFailure sep n st f =
      { st with errorMessage := WithMessage sep st.errorMessage f.Message } := by
  simp [processFailure, h, warn, log, block]

theorem foldl_processFailure_warnMessage (sep : String) (n : Option NamespacedName)
    (fs : List ValidationFailure) :
    ∀ st : ProcessState, (fs.foldl (processFailure sep n) st).warnMessage =
      (tierMessages warn fs).foldl (WithMessage sep) st.warnMessage := by
  induction fs with
  | nil => intro st; rfl
  | cons f fs ih =>
    intro st
    simp only [List.foldl_cons]
    rw [ih]
    rcases checkToActionAt_cases f.ID with h | h | h
    · simp [tierMessages, tierFailures, processFailure_log sep n st f h, h, log, warn]
    · simp [tierMessages, tierFailures, processFailure_warn sep n st f h, h]
    · simp [tierMessages, tierFailures, processFailure_block sep n st f h, h, block, warn]

theorem foldl_processFailure_errorMessage (sep : String) (n : Option NamespacedName)
    (fs : List ValidationFailure) :
    ∀ st : ProcessState, (fs.foldl (processFailure sep n) st).errorMessage =
      (tierMessages block fs).foldl (WithMessage sep) st.errorMessage := by
  induction fs with
  | nil => intro st; rfl
  | cons f fs ih =>
    intro st
    simp only [List.foldl_cons]
    rw [ih]
    rcases checkToActionAt_cases f.ID with h | h | h
    · simp [tierMessages, tierFailures, processFailure_log sep n st f h, h, log, block]
    · simp [tierMessages, tierFailures, processFailure_warn sep n st f h, h, block, warn]
    · simp [tierMessages, tierFailures, processFailure_block sep n st f h, h]

theorem foldl_processFailure_logged (sep : String) (n : Option NamespacedName)
    (fs : List ValidationFailure) :
    ∀ st : ProcessState, (fs.foldl (processFailure sep n) st).logged =
      st.logged ++ (tierFailures log fs).map (fun f => { vmiCrName := n, failure := f }) := by
  induction fs with
  | nil => intro st; simp [tierFailures]
  | cons f fs ih =>
    intro st
    simp only [List.foldl_cons]
    rw [ih]
    rcases checkToActionAt_cases f.ID with h | h | h
    · simp [tierFailures, processFailure_log sep n st f h, h]
    · simp [tierFailures, processFailure_warn sep n st f h, h, log, warn]
    · simp [tierFailures, processFailure_block sep n st f h, h, log, block]

theorem processFailures_warnMessage (sep : String) (fs : List ValidationFailure)
    (n : Option NamespacedName) :
    (processFailures sep fs n).warnMessage =
      (tierMessages warn fs).foldl (WithMessage sep) "" :=
  foldl_processFailure_warnMessage sep n fs _

theorem processFailures_errorMessage (sep : String) (fs : List ValidationFailure)
    (n : Option NamespacedName) :
    (processFailures sep fs n).errorMessage =
      (tierMessages block fs).foldl (WithMessage sep) "" :=
  foldl_processFailure_errorMessage sep n fs _

theorem processFailures_logged (sep : String) (fs : List ValidationFailure)
    (n : Option NamespacedName) :
    (processFailures sep fs n).logged =
      (tierFailures log fs).map (fun f => { vmiCrName := n, failure := f }) := by
  simpa [processFailures] using foldl_processFailure_logged sep n fs
    { logged := [], warnMessage := "", errorMessage := "" }

theorem tierMessages_eq_nil_of_forall (a b : action) (hab : a ≠ b) (fs : List ValidationFailure)
    (h : ∀ f ∈ fs, checkToActionAt f.ID = a) : tierMessages b fs = [] := by
  simp only [tierMessages, tierFailures, List.map_eq_nil_iff, List.filter_eq_nil_iff]
  intro f hf
  simp [h f hf, hab]

theorem exists_nonempty_tierMessage (a : action) (fs : List ValidationFailure) :
    (¬ ∀ m ∈ tierMessages a fs, m = "") ↔
      ∃ f ∈ fs, checkToActionAt f.ID = a ∧ f.Message ≠ "" := by
  simp only [tierMessages, tierFailures, List.mem_map, List.mem_filter, decide_eq_true_eq]
  constructor
  · intro h
    by_contra hc
    apply h
    rintro m ⟨f, ⟨hf, ha⟩, rfl⟩
    by_contra hm
    exact hc ⟨f, hf, ha, hm⟩
  · rintro ⟨f, hf, ha, hm⟩ h
    exact hm (h f.Message ⟨f, ⟨hf, ha⟩, rfl⟩)

theorem processFailures_errorMessage_ne_empty (sep : String) (fs : List ValidationFailure)
    (n : Option NamespacedName) :
    (processFailures sep fs n).errorMessage ≠ "" ↔
      ∃ f ∈ fs, checkToActionAt f.ID = block ∧ f.Message ≠ "" := by
  rw [processFailures_errorMessage, Ne, foldl_WithMessage_eq_empty, exists_nonempty_tierMessage]

theorem processFailures_warnMessage_ne_empty (sep : String) (fs : List ValidationFailure)
    (n : Option NamespacedName) :
    (processFailures sep fs n).warnMessage ≠ "" ↔
      ∃ f ∈ fs, checkToActionAt f.ID = warn ∧ f.Message ≠ "" := by
  rw [processFailures_warnMessage, Ne, foldl_WithMessage_eq_empty, exists_nonempty_tierMessage]

theorem checkToActionAt_eq_block_iff (id : CheckID) :
    checkToActionAt id = block ↔ checkToAction id = some block := by
  cases id <;> simp [checkToActionAt, checkToAction, log, warn, block]

theorem checkToActionAt_eq_warn_iff (id : CheckID) :
    checkToActionAt id = warn ↔ checkToAction id = some warn := by
  cases id <;> simp [checkToActionAt, checkToAction, log, warn, block]

theorem checkToActionAt_eq_log_of_mapped (id : CheckID) (h : checkToAction id = some log) :
    checkToActionAt id = log := by
  simp [checkToActionAt, h]

theorem processValidationFailures_of_error (sep : String) (fs : List ValidationFailure)
    (n : Option NamespacedName) (h : (processFailures sep fs n).errorMessage ≠ "") :
    processValidationFailures sep fs n =
      NewCondition MappingRulesVerified errorReason (processFailures sep fs n).errorMessage
        ConditionFalse := by
  simp [processValidationFailures, h]

theorem processMappingValidationFailures_of_error (sep : String) (fs : List ValidationFailure)
    (n : Option NamespacedName) (h : (processFailures sep fs n).errorMessage ≠ "") :
    processMappingValidationFailures sep fs n =
      NewCondition Valid incompleteMappingRulesReason (processFailures sep fs n).errorMessage
        ConditionFalse := by
  simp [processMappingValidationFailures, h]

theorem processValidationFailures_of_warn (sep : String) (fs : List ValidationFailure)
    (n : Option NamespacedName) (he : (processFailures sep fs n).errorMessage = "")
    (hw : (processFailures sep fs n).warnMessage ≠ "") :
    processValidationFailures sep fs n =
      NewCondition MappingRulesVerified warnReason (processFailures sep fs n).warnMessage
        ConditionTrue := by
  simp [processValidationFailures, he, hw]

theorem processMappingValidationFailures_of_warn (sep : String) (fs : List ValidationFailure)
    (n : Option NamespacedName) (he : (processFailures sep fs n).errorMessage = "")
    (hw : (processFailures sep fs n).warnMessage ≠ "") :
    processMappingValidationFailures sep fs n =
      NewCondition Valid validationReportedWarningsReason
        (processFailures sep fs n).warnMessage ConditionTrue := by
  simp [processMappingValidationFailures, he, hw]

theorem processValidationFailures_of_empty (sep : String) (fs : List ValidationFailure)
    (n : Option NamespacedName) (he : (processFailures sep fs n).errorMessage = "")
    (hw : (processFailures sep fs n).warnMessage = "") :
    processValidationFailures sep fs n =
      NewCondition MappingRulesVerified okReason "All mapping rules checks passed"
        ConditionTrue := by
  simp [processValidationFailures, he, hw]

theorem processMappingValidationFailures_of_empty (sep : String) (fs : List ValidationFailure)
    (n : Option NamespacedName) (he : (processFailures sep fs n).errorMessage = "")
    (hw : (processFailures sep fs n).warnMessage = "") :
    processMappingValidationFailures sep fs n =
      NewCondition Valid validationCompletedReason "Validation completed successfully"
        ConditionTrue := by
  simp [processMappingValidationFailures, he, hw]

/-! ## Tier sub-lists -/

theorem tierFailures_idem (a : action) (fs : List ValidationFailure) :
    tierFailures a (tierFailures a fs) = tierFailures a fs := by
  simp [tierFailures]

theorem tierFailures_withoutTier (a b : action) (hab : a ≠ b) (fs : List ValidationFailure) :
    tierFailures a (withoutTier b fs) = tierFailures a fs := by
  simp only [tierFailures, withoutTier, List.filter_filter]
  congr 1
  funext f
  by_cases h : checkToActionAt f.ID = a
  · simp [h, hab]
  · simp [h]

/-! ## The conditions do not depend on the name -/

theorem processValidationFailures_name (sep : String) (fs : List ValidationFailure)
    (n1 n2 : Option NamespacedName) :
    processValidationFailures sep fs n1 = processValidationFailures sep fs n2 := by
  simp only [processValidationFailures, processFailures_errorMessage,
    processFailures_warnMessage]

theorem processMappingValidationFailures_name (sep : String) (fs : List ValidationFailure)
    (n1 n2 : Option NamespacedName) :
    processMappingValidationFailures sep fs n1 = processMappingValidationFailures sep fs n2 := by
  simp only [processMappingValidationFailures, processFailures_errorMessage,
    processFailures_warnMessage]

theorem processValidationFailures_Typ (sep : String) (fs : List ValidationFailure)
    (n : Option NamespacedName) :
    (processValidationFailures sep fs n).Typ = MappingRulesVerified := by
  unfold processValidationFailures
  simp only []
  split_ifs <;> rfl

theorem processMappingValidationFailures_Typ (sep : String) (fs : List ValidationFailure)
    (n : Option NamespacedName) :
    (processMappingValidationFailures sep fs n).Typ = Valid := by
  unfold processMappingValidationFailures
  simp only []
  split_ifs <;> rfl

/-! ## `validateMappings` and `Validate` in closed form -/

theorem validateMappings_of_present (sep : String) (V : VirtualMachineImportValidator)
    (vm : Vm) (mappings : Option OvirtMappings) (n : Option NamespacedName)
    (h : pointersPresent vm n mappings) :
    validateMappings sep V vm mappings n =
      .ok (processMappingValidationFailures sep (mappingFailures V.Validator vm mappings n) n) := by
  obtain ⟨attrs, nics, das⟩ := vm
  cases nics <;> cases das <;> cases mappings <;> cases n <;>
    simp_all [pointersPresent, validateMappings, mappingFailures, Vm.Nics, Vm.DiskAttachments,
      deref, bind, Except.bind, pure, Except.pure]

theorem validateMappings_of_absent (sep : String) (V : VirtualMachineImportValidator)
    (vm : Vm) (mappings : Option OvirtMappings) (n : Option NamespacedName)
    (h : ¬ pointersPresent vm n mappings) :
    validateMappings sep V vm mappings n = .error Panic.nilPointerDereference := by
  obtain ⟨attrs, nics, das⟩ := vm
  cases nics <;> cases das <;> cases mappings <;> cases n <;>
    simp_all [pointersPresent, validateMappings, mappingFailures, Vm.Nics, Vm.DiskAttachments,
      deref, bind, Except.bind, pure, Except.pure]

theorem Validate_of_present (sep : String) (V : VirtualMachineImportValidator)
    (vm : Vm) (n : Option NamespacedName) (mappings : Option OvirtMappings)
    (finder : TemplateFinder) (h : pointersPresent vm n mappings) :
    Validate sep V vm n mappings finder =
      .ok [processMappingValidationFailures sep (mappingFailures V.Validator vm mappings n) n,
        processValidationFailures sep (ruleFailures V.Validator vm finder) n] := by
  unfold Validate
  rw [validateMappings_of_present sep V vm mappings n h]
  obtain ⟨attrs, nics, das⟩ := vm
  cases nics <;> cases das <;>
    simp [ruleFailures, Vm.Nics, Vm.DiskAttachments, bind, Except.bind, pure, Except.pure]

theorem Validate_of_absent (sep : String) (V : VirtualMachineImportValidator)
    (vm : Vm) (n : Option NamespacedName) (mappings : Option OvirtMappings)
    (finder : TemplateFinder) (h : ¬ pointersPresent vm n mappings) :
    Validate sep V vm n mappings finder = .error Panic.nilPointerDereference := by
  unfold Validate
  rw [validateMappings_of_absent sep V vm mappings n h]
  rfl

/-! ## C1: block precedence -/

/-- C1, as stated, fails: a single failure whose check is mapped to `block` but whose
message is empty leaves the error message empty, so both condition builders return
their success condition with Status True instead of Status False. -/
theorem block_precedence_fails_for_empty_message :
    (∃ f ∈ [ValidationFailure.mk CheckID.NicInterfaceCheckID ""],
        checkToAction f.ID = some block) ∧
    processValidationFailures ", " [⟨CheckID.NicInterfaceCheckID, ""⟩]
        (some ⟨"ns", "import"⟩) =
      ⟨MappingRulesVerified, MappingRulesVerificationCompleted,
        "All mapping rules checks passed", ConditionTrue⟩ ∧
    processMappingValidationFailures ", " [⟨CheckID.NicInterfaceCheckID, ""⟩]
        (some ⟨"ns", "import"⟩) =
      ⟨Valid, ValidationCompleted, "Validation completed successfully", ConditionTrue⟩ := by
  refine ⟨by decide, by decide, by decide⟩

/-- C1, amended: whenever at least one failure whose check is mapped to `block` has a
non-empty message, `processValidationFailures` returns Status False with reason
MappingRulesVerificationFailed and `processMappingValidationFailures` returns Status
False with reason IncompleteMappingRules, and in both the Message is the join, in list
order, of the messages of exactly the block-tier failures from the first non-empty one
on; no warn-tier message is part of it. -/
theorem block_precedence (sep : String) (fs : List ValidationFailure)
    (n : Option NamespacedName)
    (h : ∃ f ∈ fs, checkToAction f.ID = some block ∧ f.Message ≠ "") :
    ((processValidationFailures sep fs n).Status = ConditionFalse ∧
      (processValidationFailures sep fs n).Reason = MappingRulesVerificationFailed ∧
      (processValidationFailures sep fs n).Message =
        String.intercalate sep (dropEmptyHead (tierMessages block fs))) ∧
    ((processMappingValidationFailures sep fs n).Status = ConditionFalse ∧
      (processMappingValidationFailures sep fs n).Reason = IncompleteMappingRules ∧
      (processMappingValidationFailures sep fs n).Message =
        String.intercalate sep (dropEmptyHead (tierMessages block fs))) := by
  have he : (processFailures sep fs n).errorMessage ≠ "" := by
    rw [processFailures_errorMessage_ne_empty]
    obtain ⟨f, hf, hb, hm⟩ := h
    exact ⟨f, hf, (checkToActionAt_eq_block_iff f.ID).mpr hb, hm⟩
  have hmsg : (processFailures sep fs n).errorMessage =
      String.intercalate sep (dropEmptyHead (tierMessages block fs)) := by
    rw [processFailures_errorMessage, foldl_WithMessage_empty]
  rw [processValidationFailures_of_error sep fs n he,
    processMappingValidationFailures_of_error sep fs n he]
  simp [NewCondition, errorReason, incompleteMappingRulesReason, hmsg]

/-- C1, amended, at a list with a warn-tier failure between two block-tier failures. -/
theorem block_precedence_witness :
    (∃ f ∈ sampleRuleFailures, checkToAction f.ID = some block ∧ f.Message ≠ "") ∧
    (((processValidationFailures "; " sampleRuleFailures none).Status = ConditionFalse ∧
      (processValidationFailures "; " sampleRuleFailures none).Reason =
        MappingRulesVerificationFailed ∧
      (processValidationFailures "; " sampleRuleFailures none).Message =
        String.intercalate "; " (dropEmptyHead (tierMessages block sampleRuleFailures))) ∧
    ((processMappingValidationFailures "; " sampleRuleFailures none).Status = ConditionFalse ∧
      (processMappingValidationFailures "; " sampleRuleFailures none).Reason =
        IncompleteMappingRules ∧
      (processMappingValidationFailures "; " sampleRuleFailures none).Message =
        String.intercalate "; " (dropEmptyHead (tierMessages block sampleRuleFailures)))) :=
  ⟨by decide, block_precedence "; " sampleRuleFailures none (by decide)⟩

/-! ## C2: the warn case -/

/-- C2, as stated, fails: a list whose only failure is warn-tier with an empty message
has no block-tier failure and one warn-tier failure, yet both condition builders return
their success condition, whose reason is the completed one and whose Message is the
fixed success text rather than the join of the warn-tier messages. -/
theorem warn_case_fails_for_empty_message :
    ((∀ f ∈ [ValidationFailure.mk CheckID.NicPluggedID ""], checkToAction f.ID ≠ some block) ∧
      ∃ f ∈ [ValidationFailure.mk CheckID.NicPluggedID ""], checkToAction f.ID = some warn) ∧
    processValidationFailures ", " [⟨CheckID.NicPluggedID, ""⟩] (some ⟨"ns", "import"⟩) =
      ⟨MappingRulesVerified, MappingRulesVerificationCompleted,
        "All mapping rules checks passed", ConditionTrue⟩ ∧
    processMappingValidationFailures ", " [⟨CheckID.NicPluggedID, ""⟩]
        (some ⟨"ns", "import"⟩) =
      ⟨Valid, ValidationCompleted, "Validation completed successfully", ConditionTrue⟩ ∧
    (processValidationFailures ", " [⟨CheckID.NicPluggedID, ""⟩]
        (some ⟨"ns", "import"⟩)).Message ≠
      String.intercalate ", " (tierMessages warn [⟨CheckID.NicPluggedID, ""⟩]) ∧
    (processMappingValidationFailures ", " [⟨CheckID.NicPluggedID, ""⟩]
        (some ⟨"ns", "import"⟩)).Message ≠
      String.intercalate ", " (tierMessages warn [⟨CheckID.NicPluggedID, ""⟩]) := by
  refine ⟨by decide, by decide, by decide, by decide, by decide⟩

/-- C2, amended: whenever no failure is block-tier and at least one warn-tier failure
has a non-empty message, `processValidationFailures` returns Status True with reason
MappingRulesVerificationReportedWarnings and `processMappingValidationFailures` returns
Status True with reason ValidationReportedWarnings, and in both the Message is the
join, in list order, of the warn-tier messages from the first non-empty one on. -/
theorem warn_case (sep : String) (fs : List ValidationFailure) (n : Option NamespacedName)
    (hb : ∀ f ∈ fs, checkToAction f.ID ≠ some block)
    (hw : ∃ f ∈ fs, checkToAction f.ID = some warn ∧ f.Message ≠ "") :
    ((processValidationFailures sep fs n).Status = ConditionTrue ∧
      (processValidationFailures sep fs n).Reason = MappingRulesVerificationReportedWarnings ∧
      (processValidationFailures sep fs n).Message =
        String.intercalate sep (dropEmptyHead (tierMessages warn fs))) ∧
    ((processMappingValidationFailures sep fs n).Status = ConditionTrue ∧
      (processMappingValidationFailures sep fs n).Reason = ValidationReportedWarnings ∧
      (processMappingValidationFailures sep fs n).Message =
        String.intercalate sep (dropEmptyHead (tierMessages warn fs))) := by
  have he : (processFailures sep fs n).errorMessage = "" := by
    by_contra hc
    obtain ⟨f, hf, hblock, _⟩ := (processFailures_errorMessage_ne_empty sep fs n).mp hc
    exact hb f hf ((checkToActionAt_eq_block_iff f.ID).mp hblock)
  have hne : (processFailures sep fs n).warnMessage ≠ "" := by
    rw [processFailures_warnMessage_ne_empty]
    obtain ⟨f, hf, hwarn, hm⟩ := hw
    exact ⟨f, hf, (checkToActionAt_eq_warn_iff f.ID).mpr hwarn, hm⟩
  have hmsg : (processFailures sep fs n).warnMessage =
      String.intercalate sep (dropEmptyHead (tierMessages warn fs)) := by
    rw [processFailures_warnMessage, foldl_WithMessage_empty]
  rw [processValidationFailures_of_warn sep fs n he hne,
    processMappingValidationFailures_of_warn sep fs n he hne]
  simp [NewCondition, warnReason, validationReportedWarningsReason, hmsg]

/-- C2, amended, at a list with two warn-tier failures around a log-tier failure. -/
theorem warn_case_witness :
    ((∀ f ∈ sampleWarnFailures, checkToAction f.ID ≠ some block) ∧
      ∃ f ∈ sampleWarnFailures, checkToAction f.ID = some warn ∧ f.Message ≠ "") ∧
    (((processValidationFailures "; " sampleWarnFailures none).Status = ConditionTrue ∧
      (processValidationFailures "; " sampleWarnFailures none).Reason =
        MappingRulesVerificationReportedWarnings ∧
      (processValidationFailures "; " sampleWarnFailures none).Message =
        String.intercalate "; " (dropEmptyHead (tierMessages warn sampleWarnFailures))) ∧
    ((processMappingValidationFailures "; " sampleWarnFailures none).Status = ConditionTrue ∧
      (processMappingValidationFailures "; " sampleWarnFailures none).Reason =
        ValidationReportedWarnings ∧
      (processMappingValidationFailures "; " sampleWarnFailures none).Message =
        String.intercalate "; " (dropEmptyHead (tierMessages warn sampleWarnFailures)))) :=
  ⟨⟨by decide, by decide⟩,
    warn_case "; " sampleWarnFailures none (by decide) (by decide)⟩

/-! ## C3: the success case -/

/-- C3: when every failure of the list has its check mapped to `log` (the empty list
included, and whatever the number of failures), `processValidationFailures` returns
Status True, reason MappingRulesVerificationCompleted and the message "All mapping
rules checks passed", and `processMappingValidationFailures` returns Status True,
reason ValidationCompleted and the message "Validation completed successfully". -/
theorem success_case (sep : String) (fs : List ValidationFailure) (n : Option NamespacedName)
    (h : ∀ f ∈ fs, checkToAction f.ID = some log) :
    processValidationFailures sep fs n =
      ⟨MappingRulesVerified, MappingRulesVerificationCompleted,
        "All mapping rules checks passed", ConditionTrue⟩ ∧
    processMappingValidationFailures sep fs n =
      ⟨Valid, ValidationCompleted, "Validation completed successfully", ConditionTrue⟩ := by
  have hlog : ∀ f ∈ fs, checkToActionAt f.ID = log :=
    fun f hf => checkToActionAt_eq_log_of_mapped f.ID (h f hf)
  have he : (processFailures sep fs n).errorMessage = "" := by
    rw [processFailures_errorMessage,
      tierMessages_eq_nil_of_forall log block (by decide) fs hlog]
    rfl
  have hw : (processFailures sep fs n).warnMessage = "" := by
    rw [processFailures_warnMessage,
      tierMessages_eq_nil_of_forall log warn (by decide) fs hlog]
    rfl
  rw [processValidationFailures_of_empty sep fs n he hw,
    processMappingValidationFailures_of_empty sep fs n he hw]
  exact ⟨rfl, rfl⟩

/-- C3 at a list of two log-tier failures. -/
theorem success_case_witness :
    (∀ f ∈ sampleLogFailures, checkToAction f.ID = some log) ∧
    (processValidationFailures "; " sampleLogFailures none =
      ⟨MappingRulesVerified, MappingRulesVerificationCompleted,
        "All mapping rules checks passed", ConditionTrue⟩ ∧
    processMappingValidationFailures "; " sampleLogFailures none =
      ⟨Valid, ValidationCompleted, "Validation completed successfully", ConditionTrue⟩) :=
  ⟨by decide, success_case "; " sampleLogFailures none (by decide)⟩

/-! ## C4: the two conditions of `Validate` -/

/-- C4: for every VM, mapping configuration, name and validator, `Validate` returns
exactly two conditions: first the mapping condition, which is the result of
`validateMappings`, has Type Valid and is built from the network- and storage-mapping
failures, then the rule condition, which has Type MappingRulesVerified and is built from
the VM, NIC and disk-attachment failures; when the validators return no failures both
have Status True and their completed reason. -/
theorem Validate_two_conditions (sep : String) (V : VirtualMachineImportValidator) (vm : Vm)
    (n : NamespacedName) (mappings : OvirtMappings) (finder : TemplateFinder) :
    Validate sep V vm (some n) (some mappings) finder =
      .ok [processMappingValidationFailures sep
            (mappingFailures V.Validator vm (some mappings) (some n)) (some n),
          processValidationFailures sep (ruleFailures V.Validator vm finder) (some n)] ∧
    validateMappings sep V vm (some mappings) (some n) =
      .ok (processMappingValidationFailures sep
            (mappingFailures V.Validator vm (some mappings) (some n)) (some n)) ∧
    (processMappingValidationFailures sep
        (mappingFailures V.Validator vm (some mappings) (some n)) (some n)).Typ = Valid ∧
    (processValidationFailures sep (ruleFailures V.Validator vm finder) (some n)).Typ =
      MappingRulesVerified ∧
    (mappingFailures V.Validator vm (some mappings) (some n) = [] →
      ruleFailures V.Validator vm finder = [] →
      Validate sep V vm (some n) (some mappings) finder =
        .ok [⟨Valid, ValidationCompleted, "Validation completed successfully", ConditionTrue⟩,
          ⟨MappingRulesVerified, MappingRulesVerificationCompleted,
            "All mapping rules checks passed", ConditionTrue⟩]) := by
  have hp : pointersPresent vm (some n) (some mappings) := by simp [pointersPresent]
  refine ⟨Validate_of_present sep V vm _ _ finder hp,
    validateMappings_of_present sep V vm _ _ hp,
    processMappingValidationFailures_Typ sep _ _, processValidationFailures_Typ sep _ _, ?_⟩
  intro hm hr
  rw [Validate_of_present sep V vm _ _ finder hp, hm, hr]
  rfl

/-- C4 at a validator without findings and a VM with one NIC and one disk attachment. -/
theorem Validate_two_conditions_witness :
    (mappingFailures silentValidator sampleVm (some emptyMappings) (some ⟨"ns", "import"⟩) = [] ∧
      ruleFailures silentValidator sampleVm ⟨"finder"⟩ = []) ∧
    Validate "; " ⟨silentValidator⟩ sampleVm (some ⟨"ns", "import"⟩) (some emptyMappings)
        ⟨"finder"⟩ =
      .ok [⟨Valid, ValidationCompleted, "Validation completed successfully", ConditionTrue⟩,
        ⟨MappingRulesVerified, MappingRulesVerificationCompleted,
          "All mapping rules checks passed", ConditionTrue⟩] :=
  ⟨⟨rfl, rfl⟩,
    (Validate_two_conditions "; " ⟨silentValidator⟩ sampleVm ⟨"ns", "import"⟩ emptyMappings
      ⟨"finder"⟩).2.2.2.2 rfl rfl⟩

/-! ## C5: the message format -/

/-- C5, as stated, fails: for two warn-tier failures with the messages "" and "b" the
bucket joined by the separator ", " is ", b", while `processFailures` returns "b": an
empty text so far is taken for the start of the bucket and no separator is written. -/
theorem message_format_fails_after_empty_message :
    tierMessages warn [⟨CheckID.NicPluggedID, ""⟩, ⟨CheckID.VMIoThreadsID, "b"⟩] = ["", "b"] ∧
    String.intercalate ", " ["", "b"] = ", b" ∧
    (processFailures ", " [⟨CheckID.NicPluggedID, ""⟩, ⟨CheckID.VMIoThreadsID, "b"⟩]
      (some ⟨"ns", "import"⟩)).warnMessage = "b" := by
  refine ⟨by decide, by decide, by decide⟩

/-- C5, amended: for every failure list the warn message of `processFailures` is the
join by the separator, in list order, of the warn-tier messages from the first non-empty
one on, and the error message is the same join of the block-tier messages; a bucket
without failures yields the empty string, a bucket with a single failure yields exactly
that failure's message, and the message of a bucket starts with the bucket's first
message, with no separator before it. -/
theorem message_format (sep : String) (fs : List ValidationFailure)
    (n : Option NamespacedName) :
    (processFailures sep fs n).warnMessage =
      String.intercalate sep (dropEmptyHead (tierMessages warn fs)) ∧
    (processFailures sep fs n).errorMessage =
      String.intercalate sep (dropEmptyHead (tierMessages block fs)) ∧
    (tierMessages warn fs = [] → (processFailures sep fs n).warnMessage = "") ∧
    (tierMessages block fs = [] → (processFailures sep fs n).errorMessage = "") ∧
    (∀ m, tierMessages warn fs = [m] → (processFailures sep fs n).warnMessage = m) ∧
    (∀ m, tierMessages block fs = [m] → (processFailures sep fs n).errorMessage = m) ∧
    (∀ m ms, tierMessages warn fs = m :: ms →
      ∃ post : String, (processFailures sep fs n).warnMessage = m ++ post) ∧
    (∀ m ms, tierMessages block fs = m :: ms →
      ∃ post : String, (processFailures sep fs n).errorMessage = m ++ post) := by
  rw [processFailures_warnMessage, processFailures_errorMessage]
  refine ⟨foldl_WithMessage_empty sep _, foldl_WithMessage_empty sep _, ?_, ?_, ?_, ?_, ?_, ?_⟩
  · intro h; rw [h]; rfl
  · intro h; rw [h]; rfl
  · intro m h; rw [h]; simp [WithMessage_empty_left]
  · intro m h; rw [h]; simp [WithMessage_empty_left]
  · intro m ms h; rw [h]; exact foldl_WithMessage_cons_starts sep m ms
  · intro m ms h; rw [h]; exact foldl_WithMessage_cons_starts sep m ms

/-- C5, amended, at a list with two block-tier failures, one warn-tier failure and one
log-tier failure: the error message joins two texts, the warn message is a single text. -/
theorem message_format_witness :
    tierMessages warn sampleRuleFailures = ["nic unplugged"] ∧
    (processFailures "; " sampleRuleFailures none).warnMessage = "nic unplugged" ∧
    tierMessages block sampleRuleFailures = "vm is up" :: ["sgio"] ∧
    (∃ post : String,
      (processFailures "; " sampleRuleFailures none).errorMessage = "vm is up" ++ post) :=
  ⟨by decide,
    (message_format "; " sampleRuleFailures none).2.2.2.2.1 "nic unplugged" (by decide),
    by decide,
    (message_format "; " sampleRuleFailures none).2.2.2.2.2.2.2 "vm is up" ["sgio"] (by decide)⟩

/-! ## C6: routing -/

/-- C6: in `processFailures` every failure goes to exactly one of the three outcomes,
chosen by `checkToAction[failure.ID]` alone: it is logged (tier `log`), appended to the
warn message (tier `warn`) or appended to the error message (tier `block`), and the
other two components stay as they are. Hence the logged failures are the log-tier
sub-list, the warn message is that of the warn-tier sub-list, the error message is that
of the block-tier sub-list, and two lists that differ only by log-tier failures (deleted
or inserted anywhere) have the same two messages. -/
theorem routing (sep : String) (fs : List ValidationFailure) (n : Option NamespacedName) :
    (∀ (st : ProcessState) (f : ValidationFailure),
      (checkToActionAt f.ID = log ∧ processFailure sep n st f =
          { st with logged := st.logged ++ [{ vmiCrName := n, failure := f }] }) ∨
      (checkToActionAt f.ID = warn ∧ processFailure sep n st f =
          { st with warnMessage := WithMessage sep st.warnMessage f.Message }) ∨
      (checkToActionAt f.ID = block ∧ processFailure sep n st f =
          { st with errorMessage := WithMessage sep st.errorMessage f.Message })) ∧
    (processFailures sep fs n).logged =
      (tierFailures log fs).map (fun f => { vmiCrName := n, failure := f }) ∧
    (processFailures sep fs n).warnMessage =
      (processFailures sep (tierFailures warn fs) n).warnMessage ∧
    (processFailures sep fs n).errorMessage =
      (processFailures sep (tierFailures block fs) n).errorMessage ∧
    (∀ gs : List ValidationFailure, withoutTier log gs = withoutTier log fs →
      (processFailures sep gs n).warnMessage = (processFailures sep fs n).warnMessage ∧
      (processFailures sep gs n).errorMessage = (processFailures sep fs n).errorMessage) ∧
    (∀ (pre post : List ValidationFailure) (g : ValidationFailure),
      checkToActionAt g.ID = log →
      (processFailures sep (pre ++ g :: post) n).warnMessage =
        (processFailures sep (pre ++ post) n).warnMessage ∧
      (processFailures sep (pre ++ g :: post) n).errorMessage =
        (processFailures sep (pre ++ post) n).errorMessage) := by
  refine ⟨?_, processFailures_logged sep fs n, ?_, ?_, ?_, ?_⟩
  · intro st f
    rcases checkToActionAt_cases f.ID with h | h | h
    · exact Or.inl ⟨h, processFailure_log sep n st f h⟩
    · exact Or.inr (Or.inl ⟨h, processFailure_warn sep n st f h⟩)
    · exact Or.inr (Or.inr ⟨h, processFailure_block sep n st f h⟩)
  · simp only [processFailures_warnMessage, tierMessages, tierFailures_idem]
  · simp only [processFailures_errorMessage, tierMessages, tierFailures_idem]
  · intro gs h
    simp only [processFailures_warnMessage, processFailures_errorMessage, tierMessages]
    rw [← tierFailures_withoutTier warn log (by decide) gs,
      ← tierFailures_withoutTier block log (by decide) gs, h,
      tierFailures_withoutTier warn log (by decide) fs,
      tierFailures_withoutTier block log (by decide) fs]
    exact ⟨rfl, rfl⟩
  · intro pre post g hg
    simp only [processFailures_warnMessage, processFailures_errorMessage, tierMessages,
      tierFailures, List.filter_append, List.filter_cons, hg]
    simp [log, warn, block]

/-- C6 at the sample list: the log-tier failure at its end is logged, and the list
without it has the same two messages. -/
theorem routing_witness :
    withoutTier log
        [⟨CheckID.VMStatusID, "vm is up"⟩, ⟨CheckID.NicPluggedID, "nic unplugged"⟩,
          ⟨CheckID.DiskSgioID, "sgio"⟩] = withoutTier log sampleRuleFailures ∧
    ((processFailures "; " [⟨CheckID.VMStatusID, "vm is up"⟩,
        ⟨CheckID.NicPluggedID, "nic unplugged"⟩, ⟨CheckID.DiskSgioID, "sgio"⟩]
        none).warnMessage = (processFailures "; " sampleRuleFailures none).warnMessage ∧
      (processFailures "; " [⟨CheckID.VMStatusID, "vm is up"⟩,
        ⟨CheckID.NicPluggedID, "nic unplugged"⟩, ⟨CheckID.DiskSgioID, "sgio"⟩]
        none).errorMessage = (processFailures "; " sampleRuleFailures none).errorMessage) :=
  ⟨by rfl, (routing "; " sampleRuleFailures none).2.2.2.2.1 _ (by rfl)⟩

/-! ## C7: totality of `Validate` -/

/-- C7, as stated, fails: with an absent mapping configuration and a VM that has a
disk-attachment collection `Validate` reads `mappings.StorageMappings` through the nil
pointer and aborts; with an absent name and a VM that has a NIC collection it reads
`vmiCrName.Namespace` through the nil pointer and aborts. -/
theorem Validate_aborts_on_nil_pointer :
    Validate ", " ⟨silentValidator⟩ diskOnlyVm (some ⟨"ns", "import"⟩) none ⟨"finder"⟩ =
      .error Panic.nilPointerDereference ∧
    Validate ", " ⟨silentValidator⟩ sampleVm none (some emptyMappings) ⟨"finder"⟩ =
      .error Panic.nilPointerDereference := by
  exact ⟨rfl, rfl⟩

/-- C7, amended: `Validate` returns its two conditions exactly when it reads no field
through a nil pointer, that is, when the mapping configuration and the name are present
for a VM with a NIC collection and the mapping configuration is present for a VM with a
disk-attachment collection (the VM may have either collection or not); on every other
input it aborts with a nil dereference. In particular it returns for every VM when both
are present, and for a VM with neither collection whatever is absent. -/
theorem Validate_total_iff_pointers_present (sep : String) (V : VirtualMachineImportValidator)
    (vm : Vm) (n : Option NamespacedName) (mappings : Option OvirtMappings)
    (finder : TemplateFinder) :
    (pointersPresent vm n mappings →
      ∃ c1 c2, Validate sep V vm n mappings finder = .ok [c1, c2]) ∧
    (¬ pointersPresent vm n mappings →
      Validate sep V vm n mappings finder = .error Panic.nilPointerDereference) ∧
    (n ≠ none → mappings ≠ none → pointersPresent vm n mappings) ∧
    (vm.Nics = none → vm.DiskAttachments = none → pointersPresent vm n mappings) := by
  refine ⟨fun h => ⟨_, _, Validate_of_present sep V vm n mappings finder h⟩,
    Validate_of_absent sep V vm n mappings finder, ?_, ?_⟩
  · intro hn hm
    exact ⟨Or.inr ⟨hm, hn⟩, Or.inr hm⟩
  · intro hN hD
    exact ⟨Or.inl hN, Or.inl hD⟩

/-- C7, amended, at a VM with both collections with name and mappings present, and at
the same VM without a mapping configuration. -/
theorem Validate_total_iff_pointers_present_witness :
    (pointersPresent sampleVm (some ⟨"ns", "import"⟩) (some emptyMappings) ∧
      ∃ c1 c2, Validate "; " ⟨findingValidator⟩ sampleVm (some ⟨"ns", "import"⟩)
        (some emptyMappings) ⟨"finder"⟩ = .ok [c1, c2]) ∧
    (¬ pointersPresent sampleVm (some ⟨"ns", "import"⟩) none ∧
      Validate "; " ⟨findingValidator⟩ sampleVm (some ⟨"ns", "import"⟩) none ⟨"finder"⟩ =
        .error Panic.nilPointerDereference) :=
  ⟨⟨by decide,
      (Validate_total_iff_pointers_present "; " ⟨findingValidator⟩ sampleVm
        (some ⟨"ns", "import"⟩) (some emptyMappings) ⟨"finder"⟩).1 (by decide)⟩,
    ⟨by decide,
      (Validate_total_iff_pointers_present "; " ⟨findingValidator⟩ sampleVm
        (some ⟨"ns", "import"⟩) none ⟨"finder"⟩).2.1 (by decide)⟩⟩

/-! ## C8: the name -/

/-- C8, as stated, fails: the Namespace of the name is an argument of
`ValidateNetworkMapping`, so a validator that reads it gives different mapping
conditions for two names that differ in their Namespace. -/
theorem Validate_depends_on_namespace :
    Validate ", " ⟨namespaceValidator⟩ sampleVm (some ⟨"tenant", "import"⟩)
        (some emptyMappings) ⟨"finder"⟩ =
      .ok [⟨Valid, ValidationCompleted, "Validation completed successfully", ConditionTrue⟩,
        ⟨MappingRulesVerified, MappingRulesVerificationCompleted,
          "All mapping rules checks passed", ConditionTrue⟩] ∧
    Validate ", " ⟨namespaceValidator⟩ sampleVm (some ⟨"other", "import"⟩)
        (some emptyMappings) ⟨"finder"⟩ =
      .ok [⟨Valid, IncompleteMappingRules, "no target", ConditionFalse⟩,
        ⟨MappingRulesVerified, MappingRulesVerificationCompleted,
          "All mapping rules checks passed", ConditionTrue⟩] := by
  exact ⟨rfl, rfl⟩

/-- C8, amended: the Name component of the name takes no part in the result of
`Validate`, and the Namespace component takes part only as the argument of
`ValidateNetworkMapping` for a VM with a NIC collection: for every VM, mapping
configuration and validator, two names that are both absent or have the same Namespace
give the same result, and for a VM without a NIC collection any two names do. -/
theorem Validate_name_only_namespace (sep : String) (V : VirtualMachineImportValidator)
    (vm : Vm) (n1 n2 : Option NamespacedName) (mappings : Option OvirtMappings)
    (finder : TemplateFinder)
    (h : vm.Nics = none ∨ n1.map (fun n => n.Namespace) = n2.map (fun n => n.Namespace)) :
    Validate sep V vm n1 mappings finder = Validate sep V vm n2 mappings finder := by
  have hpp : pointersPresent vm n1 mappings ↔ pointersPresent vm n2 mappings := by
    rcases h with h | h
    · simp [pointersPresent, h]
    · cases n1 <;> cases n2 <;> simp_all [pointersPresent]
  have hmf : mappingFailures V.Validator vm mappings n1 =
      mappingFailures V.Validator vm mappings n2 := by
    rcases h with h | h
    · simp [mappingFailures, h]
    · obtain ⟨attrs, nics, das⟩ := vm
      cases n1 <;> cases n2 <;> cases nics <;> cases mappings <;>
        simp_all [mappingFailures, Vm.Nics]
  by_cases hp : pointersPresent vm n1 mappings
  · rw [Validate_of_present sep V vm n1 mappings finder hp,
      Validate_of_present sep V vm n2 mappings finder (hpp.mp hp), hmf,
      processMappingValidationFailures_name sep _ n1 n2,
      processValidationFailures_name sep _ n1 n2]
  · rw [Validate_of_absent sep V vm n1 mappings finder hp,
      Validate_of_absent sep V vm n2 mappings finder (fun hc => hp (hpp.mpr hc))]

/-- C8, amended, at two names of one namespace. -/
theorem Validate_name_only_namespace_witness :
    (sampleVm.Nics = none ∨
      (some (⟨"other", "import-a"⟩ : NamespacedName)).map (fun n => n.Namespace) =
        (some (⟨"other", "import-b"⟩ : NamespacedName)).map (fun n => n.Namespace)) ∧
    Validate "; " ⟨namespaceValidator⟩ sampleVm (some ⟨"other", "import-a"⟩)
        (some emptyMappings) ⟨"finder"⟩ =
      Validate "; " ⟨namespaceValidator⟩ sampleVm (some ⟨"other", "import-b"⟩)
        (some emptyMappings) ⟨"finder"⟩ :=
  ⟨Or.inr rfl,
    Validate_name_only_namespace "; " ⟨namespaceValidator⟩ sampleVm _ _ _ _ (Or.inr rfl)⟩

/-! ## C9: independence of the two conditions -/

/-- C9: whenever two runs of `Validate` return, with any validators, VMs, names, mapping
configurations and finders, the rule conditions (second) agree as soon as the outputs of
`ValidateVM`, `ValidateNics` and `ValidateDiskAttachments` agree, whatever the mapping
validators return and whatever the mapping configuration is, and the mapping conditions
(first) agree as soon as the outputs of `ValidateNetworkMapping` and
`ValidateStorageMapping` agree, whatever the rule validators return. Each condition is
the condition builder applied to its own failures only, so a block-tier mapping failure
leaves the rule condition as it is, and a block-tier rule failure leaves the mapping
condition as it is. -/
theorem Validate_conditions_independent (sep : String)
    (V1 V2 : VirtualMachineImportValidator) (vm1 vm2 : Vm) (n1 n2 : Option NamespacedName)
    (m1 m2 : Option OvirtMappings) (finder1 finder2 : TemplateFinder)
    (r1 r2 : List VirtualMachineImportCondition)
    (h1 : Validate sep V1 vm1 n1 m1 finder1 = .ok r1)
    (h2 : Validate sep V2 vm2 n2 m2 finder2 = .ok r2) :
    r1 = [processMappingValidationFailures sep (mappingFailures V1.Validator vm1 m1 n1) n1,
      processValidationFailures sep (ruleFailures V1.Validator vm1 finder1) n1] ∧
    (ruleFailures V1.Validator vm1 finder1 = ruleFailures V2.Validator vm2 finder2 →
      r1.get? 1 = r2.get? 1) ∧
    (mappingFailures V1.Validator vm1 m1 n1 = mappingFailures V2.Validator vm2 m2 n2 →
      r1.get? 0 = r2.get? 0) := by
  have key : ∀ (V : VirtualMachineImportValidator) (vm : Vm) (n : Option NamespacedName)
      (m : Option OvirtMappings) (finder : TemplateFinder)
      (r : List VirtualMachineImportCondition),
      Validate sep V vm n m finder = .ok r →
      r = [processMappingValidationFailures sep (mappingFailures V.Validator vm m n) n,
        processValidationFailures sep (ruleFailures V.Validator vm finder) n] := by
    intro V vm n m finder r h
    by_cases hp : pointersPresent vm n m
    · rw [Validate_of_present sep V vm n m finder hp] at h
      exact (Except.ok.inj h).symm
    · rw [Validate_of_absent sep V vm n m finder hp] at h
      cases h
  have e1 := key V1 vm1 n1 m1 finder1 r1 h1
  have e2 := key V2 vm2 n2 m2 finder2 r2 h2
  refine ⟨e1, ?_, ?_⟩
  · intro h
    rw [e1, e2, h, processValidationFailures_name sep _ n1 n2]
    rfl
  · intro h
    rw [e1, e2, h, processMappingValidationFailures_name sep _ n1 n2]
    rfl

/-- C9 at two validators of which one reports a block-tier mapping failure and the
other none, with the same (empty) rule failures: the rule conditions agree. -/
theorem Validate_conditions_independent_witness :
    (Validate "; " ⟨namespaceValidator⟩ sampleVm (some ⟨"other", "import"⟩)
        (some emptyMappings) ⟨"finder"⟩ =
      .ok [⟨Valid, IncompleteMappingRules, "no target", ConditionFalse⟩,
        ⟨MappingRulesVerified, MappingRulesVerificationCompleted,
          "All mapping rules checks passed", ConditionTrue⟩] ∧
      Validate "; " ⟨silentValidator⟩ bareVm none none ⟨"finder"⟩ =
      .ok [⟨Valid, ValidationCompleted, "Validation completed successfully", ConditionTrue⟩,
        ⟨MappingRulesVerified, MappingRulesVerificationCompleted,
          "All mapping rules checks passed", ConditionTrue⟩] ∧
      ruleFailures namespaceValidator sampleVm ⟨"finder"⟩ =
        ruleFailures silentValidator bareVm ⟨"finder"⟩) ∧
    [(⟨Valid, IncompleteMappingRules, "no target", ConditionFalse⟩ :
        VirtualMachineImportCondition),
      ⟨MappingRulesVerified, MappingRulesVerificationCompleted,
        "All mapping rules checks passed", ConditionTrue⟩].get? 1 =
    [(⟨Valid, ValidationCompleted, "Validation completed successfully", ConditionTrue⟩ :
        VirtualMachineImportCondition),
      ⟨MappingRulesVerified, MappingRulesVerificationCompleted,
        "All mapping rules checks passed", ConditionTrue⟩].get? 1 :=
  ⟨⟨rfl, rfl, rfl⟩,
    (Validate_conditions_independent "; " ⟨namespaceValidator⟩ ⟨silentValidator⟩ sampleVm
      bareVm (some ⟨"other", "import"⟩) none (some emptyMappings) none ⟨"finder"⟩ ⟨"finder"⟩
      _ _ rfl rfl).2.1 rfl⟩

/-! ## C10: multiple pod-network targets -/

/-- C10: `checkToAction` maps NetworkMultiplePodTargetsID to `block`, and for every
mapping-failure list that contains a failure with that ID and a non-empty message,
whatever the other failures, `processMappingValidationFailures` returns Status False
with reason IncompleteMappingRules and a Message in which that failure's message
occurs. -/
theorem multiple_pod_targets_block (sep : String) (fs : List ValidationFailure)
    (n : Option NamespacedName) (f : ValidationFailure) (hf : f ∈ fs)
    (hid : f.ID = CheckID.NetworkMultiplePodTargetsID) (hm : f.Message ≠ "") :
    checkToAction CheckID.NetworkMultiplePodTargetsID = some block ∧
    (processMappingValidationFailures sep fs n).Status = ConditionFalse ∧
    (processMappingValidationFailures sep fs n).Reason = IncompleteMappingRules ∧
    Occurs f.Message (processMappingValidationFailures sep fs n).Message := by
  have hb : checkToActionAt f.ID = block := by rw [hid]; rfl
  have he : (processFailures sep fs n).errorMessage ≠ "" :=
    (processFailures_errorMessage_ne_empty sep fs n).mpr ⟨f, hf, hb, hm⟩
  have hmem : f.Message ∈ tierMessages block fs := by
    simp only [tierMessages, tierFailures, List.mem_map, List.mem_filter, decide_eq_true_eq]
    exact ⟨f, ⟨hf, hb⟩, rfl⟩
  rw [processMappingValidationFailures_of_error sep fs n he]
  refine ⟨rfl, rfl, rfl, ?_⟩
  show Occurs f.Message (processFailures sep fs n).errorMessage
  rw [processFailures_errorMessage]
  exact Occurs_foldl_of_mem sep _ _ _ hmem


/-- C10 at the sample mapping-failure list. -/
theorem multiple_pod_targets_block_witness :
    ((⟨CheckID.NetworkMultiplePodTargetsID, "two pod networks"⟩ : ValidationFailure) ∈
        sampleMappingFailures ∧
      (⟨CheckID.NetworkMultiplePodTargetsID, "two pod networks"⟩ : ValidationFailure).ID =
        CheckID.NetworkMultiplePodTargetsID ∧
      (⟨CheckID.NetworkMultiplePodTargetsID, "two pod networks"⟩ : ValidationFailure).Message
        ≠ "") ∧
    (checkToAction CheckID.NetworkMultiplePodTargetsID = some block ∧
      (processMappingValidationFailures "; " sampleMappingFailures none).Status =
        ConditionFalse ∧
      (processMappingValidationFailures "; " sampleMappingFailures none).Reason =
        IncompleteMappingRules ∧
      Occurs "two pod networks"
        (processMappingValidationFailures "; " sampleMappingFailures none).Message) :=
  ⟨⟨by simp [sampleMappingFailures], rfl, by decide⟩,
    multiple_pod_targets_block "; " sampleMappingFailures none
      ⟨CheckID.NetworkMultiplePodTargetsID, "two pod networks"⟩
      (by simp [sampleMappingFailures]) rfl (by decide)⟩


/-! ## Removing and appending failures -/

theorem processFailures_errorMessage_withoutTier (sep : String) (fs : List ValidationFailure)
    (n : Option NamespacedName) (a : action) (ha : a ≠ block) :
    (processFailures sep (withoutTier a fs) n).errorMessage =
      (processFailures sep fs n).errorMessage := by
  simp only [processFailures_errorMessage, tierMessages]
  rw [tierFailures_withoutTier block a (fun h => ha h.symm) fs]

theorem processFailures_warnMessage_withoutTier (sep : String) (fs : List ValidationFailure)
    (n : Option NamespacedName) (a : action) (ha : a ≠ warn) :
    (processFailures sep (withoutTier a fs) n).warnMessage =
      (processFailures sep fs n).warnMessage := by
  simp only [processFailures_warnMessage, tierMessages]
  rw [tierFailures_withoutTier warn a (fun h => ha h.symm) fs]

theorem ruleFailures_of_absent (V : Validator) (vm : Vm) (finder : TemplateFinder)
    (hN : vm.Nics = none) (hD : vm.DiskAttachments = none) :
    ruleFailures V vm finder = V.ValidateVM vm finder := by
  simp [ruleFailures, hN, hD]

theorem mappingFailures_of_absent (V : Validator) (vm : Vm) (m : Option OvirtMappings)
    (n : Option NamespacedName) (hN : vm.Nics = none) (hD : vm.DiskAttachments = none) :
    mappingFailures V vm m n = [] := by
  simp [mappingFailures, hN, hD]

/-! ## C11: the SCSI-reservation scenario -/

/-- C11: `checkToAction` maps DiskAttachmentUsesScsiReservationID and
DiskUsesScsiReservationID to `block`, and for every rule-failure list that contains a
failure with one of these IDs and a non-empty message, whatever warn-tier VM-level and
NIC-level failures are in the list with it, `processValidationFailures` returns Status
False with reason MappingRulesVerificationFailed and a Message in which the
SCSI-reservation failure's message occurs and which is the Message obtained for the list
without its warn-tier failures. -/
theorem scsi_reservation_block (sep : String) (fs : List ValidationFailure)
    (n : Option NamespacedName) (f : ValidationFailure) (hf : f ∈ fs)
    (hid : f.ID = CheckID.DiskAttachmentUsesScsiReservationID ∨
      f.ID = CheckID.DiskUsesScsiReservationID)
    (hm : f.Message ≠ "") :
    (checkToAction CheckID.DiskAttachmentUsesScsiReservationID = some block ∧
      checkToAction CheckID.DiskUsesScsiReservationID = some block) ∧
    (processValidationFailures sep fs n).Status = ConditionFalse ∧
    (processValidationFailures sep fs n).Reason = MappingRulesVerificationFailed ∧
    Occurs f.Message (processValidationFailures sep fs n).Message ∧
    (processValidationFailures sep fs n).Message =
      (processValidationFailures sep (withoutTier warn fs) n).Message := by
  have hb : checkToActionAt f.ID = block := by
    rcases hid with h | h <;> rw [h] <;> rfl
  have he : (processFailures sep fs n).errorMessage ≠ "" :=
    (processFailures_errorMessage_ne_empty sep fs n).mpr ⟨f, hf, hb, hm⟩
  have hsame := processFailures_errorMessage_withoutTier sep fs n warn (by decide)
  have he2 : (processFailures sep (withoutTier warn fs) n).errorMessage ≠ "" := by
    rw [hsame]; exact he
  have hmem : f.Message ∈ tierMessages block fs := by
    simp only [tierMessages, tierFailures, List.mem_map, List.mem_filter, decide_eq_true_eq]
    exact ⟨f, ⟨hf, hb⟩, rfl⟩
  rw [processValidationFailures_of_error sep fs n he,
    processValidationFailures_of_error sep _ n he2]
  refine ⟨⟨rfl, rfl⟩, rfl, rfl, ?_, ?_⟩
  · show Occurs f.Message (processFailures sep fs n).errorMessage
    rw [processFailures_errorMessage]
    exact Occurs_foldl_of_mem sep _ _ _ hmem
  · show (processFailures sep fs n).errorMessage =
      (processFailures sep (withoutTier warn fs) n).errorMessage
    exact hsame.symm

/-- C11 at a list with a warn-tier VM-level failure, a warn-tier NIC-level failure and
a disk attachment that uses a SCSI reservation. -/
theorem scsi_reservation_block_witness :
    ((⟨CheckID.DiskAttachmentUsesScsiReservationID, "scsi reservation"⟩ :
          ValidationFailure) ∈ sampleScsiFailures ∧
      ((⟨CheckID.DiskAttachmentUsesScsiReservationID, "scsi reservation"⟩ :
          ValidationFailure).ID = CheckID.DiskAttachmentUsesScsiReservationID ∨
        (⟨CheckID.DiskAttachmentUsesScsiReservationID, "scsi reservation"⟩ :
          ValidationFailure).ID = CheckID.DiskUsesScsiReservationID) ∧
      (⟨CheckID.DiskAttachmentUsesScsiReservationID, "scsi reservation"⟩ :
          ValidationFailure).Message ≠ "") ∧
    ((checkToAction CheckID.DiskAttachmentUsesScsiReservationID = some block ∧
      checkToAction CheckID.DiskUsesScsiReservationID = some block) ∧
    (processValidationFailures "; " sampleScsiFailures none).Status = ConditionFalse ∧
    (processValidationFailures "; " sampleScsiFailures none).Reason =
      MappingRulesVerificationFailed ∧
    Occurs "scsi reservation" (processValidationFailures "; " sampleScsiFailures none).Message ∧
    (processValidationFailures "; " sampleScsiFailures none).Message =
      (processValidationFailures "; " (withoutTier warn sampleScsiFailures) none).Message) :=
  ⟨⟨by simp [sampleScsiFailures], Or.inl rfl, by decide⟩,
    scsi_reservation_block "; " sampleScsiFailures none
      ⟨CheckID.DiskAttachmentUsesScsiReservationID, "scsi reservation"⟩
      (by simp [sampleScsiFailures]) (Or.inl rfl) (by decide)⟩

/-! ## C12: a missing storage mapping -/

/-- C12: `checkToAction` maps StorageTargetDefaultClass to `warn`, and for every
mapping-failure list whose warn-tier and block-tier failures all have the ID
StorageTargetDefaultClass, at least one of them with a non-empty message,
`processMappingValidationFailures` returns Status True with reason
ValidationReportedWarnings, and not Status False. -/
theorem default_storage_class_warns (sep : String) (fs : List ValidationFailure)
    (n : Option NamespacedName)
    (hall : ∀ f ∈ fs, checkToActionAt f.ID = warn ∨ checkToActionAt f.ID = block →
      f.ID = CheckID.StorageTargetDefaultClass)
    (hex : ∃ f ∈ fs, f.ID = CheckID.StorageTargetDefaultClass ∧ f.Message ≠ "") :
    checkToAction CheckID.StorageTargetDefaultClass = some warn ∧
    (processMappingValidationFailures sep fs n).Status = ConditionTrue ∧
    (processMappingValidationFailures sep fs n).Reason = ValidationReportedWarnings ∧
    (processMappingValidationFailures sep fs n).Status ≠ ConditionFalse := by
  have he : (processFailures sep fs n).errorMessage = "" := by
    by_contra hc
    obtain ⟨f, hf, hblock, _⟩ := (processFailures_errorMessage_ne_empty sep fs n).mp hc
    have hid := hall f hf (Or.inr hblock)
    rw [hid] at hblock
    revert hblock
    decide
  have hw : (processFailures sep fs n).warnMessage ≠ "" := by
    rw [processFailures_warnMessage_ne_empty]
    obtain ⟨f, hf, hid, hm⟩ := hex
    exact ⟨f, hf, by rw [hid]; rfl, hm⟩
  rw [processMappingValidationFailures_of_warn sep fs n he hw]
  exact ⟨rfl, rfl, rfl, by simp [NewCondition]⟩

/-- C12 at a list that reports the default storage class twice. -/
theorem default_storage_class_warns_witness :
    ((∀ f ∈ sampleDefaultClassFailures,
        checkToActionAt f.ID = warn ∨ checkToActionAt f.ID = block →
          f.ID = CheckID.StorageTargetDefaultClass) ∧
      ∃ f ∈ sampleDefaultClassFailures,
        f.ID = CheckID.StorageTargetDefaultClass ∧ f.Message ≠ "") ∧
    (checkToAction CheckID.StorageTargetDefaultClass = some warn ∧
    (processMappingValidationFailures "; " sampleDefaultClassFailures none).Status =
      ConditionTrue ∧
    (processMappingValidationFailures "; " sampleDefaultClassFailures none).Reason =
      ValidationReportedWarnings ∧
    (processMappingValidationFailures "; " sampleDefaultClassFailures none).Status ≠
      ConditionFalse) :=
  ⟨⟨by simp [sampleDefaultClassFailures], by simp [sampleDefaultClassFailures]⟩,
    default_storage_class_warns "; " sampleDefaultClassFailures none
      (by simp [sampleDefaultClassFailures]) (by simp [sampleDefaultClassFailures])⟩


/-! ## C13: absent collections -/

/-- C13: for a VM without a NIC collection and without a disk-attachment collection,
whatever the mapping configuration, the name and the validator, `Validate` returns the
mapping condition Status True / ValidationCompleted / "Validation completed
successfully" and the rule condition built from the output of `ValidateVM` alone; the
four other validators are not called, so two validators with the same `ValidateVM` give
the same result; and when `ValidateVM` reports no warn-tier and no block-tier failure
the rule condition is Status True / MappingRulesVerificationCompleted as well. -/
theorem absent_collections (sep : String) (V : VirtualMachineImportValidator) (vm : Vm)
    (n : Option NamespacedName) (mappings : Option OvirtMappings) (finder : TemplateFinder)
    (hN : vm.Nics = none) (hD : vm.DiskAttachments = none) :
    Validate sep V vm n mappings finder =
      .ok [⟨Valid, ValidationCompleted, "Validation completed successfully", ConditionTrue⟩,
        processValidationFailures sep (V.Validator.ValidateVM vm finder) n] ∧
    (∀ V2 : VirtualMachineImportValidator,
      V2.Validator.ValidateVM vm finder = V.Validator.ValidateVM vm finder →
      Validate sep V2 vm n mappings finder = Validate sep V vm n mappings finder) ∧
    ((∀ f ∈ V.Validator.ValidateVM vm finder,
        checkToActionAt f.ID ≠ warn ∧ checkToActionAt f.ID ≠ block) →
      Validate sep V vm n mappings finder =
        .ok [⟨Valid, ValidationCompleted, "Validation completed successfully", ConditionTrue⟩,
          ⟨MappingRulesVerified, MappingRulesVerificationCompleted,
            "All mapping rules checks passed", ConditionTrue⟩]) := by
  have hp : pointersPresent vm n mappings := ⟨Or.inl hN, Or.inl hD⟩
  have key : ∀ W : VirtualMachineImportValidator, Validate sep W vm n mappings finder =
      .ok [⟨Valid, ValidationCompleted, "Validation completed successfully", ConditionTrue⟩,
        processValidationFailures sep (W.Validator.ValidateVM vm finder) n] := by
    intro W
    rw [Validate_of_present sep W vm n mappings finder hp,
      mappingFailures_of_absent W.Validator vm mappings n hN hD,
      ruleFailures_of_absent W.Validator vm finder hN hD]
    rfl
  refine ⟨key V, ?_, ?_⟩
  · intro V2 h
    rw [key V2, key V, h]
  · intro h
    have hlog : ∀ f ∈ V.Validator.ValidateVM vm finder, checkToActionAt f.ID = log := by
      intro f hf
      rcases checkToActionAt_cases f.ID with hl | hw | hb
      · exact hl
      · exact absurd hw (h f hf).1
      · exact absurd hb (h f hf).2
    have he : (processFailures sep (V.Validator.ValidateVM vm finder) n).errorMessage = "" := by
      rw [processFailures_errorMessage,
        tierMessages_eq_nil_of_forall log block (by decide) _ hlog]
      rfl
    have hw : (processFailures sep (V.Validator.ValidateVM vm finder) n).warnMessage = "" := by
      rw [processFailures_warnMessage,
        tierMessages_eq_nil_of_forall log warn (by decide) _ hlog]
      rfl
    rw [key V, processValidationFailures_of_empty sep _ n he hw]
    rfl

/-- C13 at a VM with neither collection, without name and without mapping
configuration, and a validator whose mapping checks would report failures. -/
theorem absent_collections_witness :
    (bareVm.Nics = none ∧ bareVm.DiskAttachments = none ∧
      ∀ f ∈ namespaceValidator.ValidateVM bareVm ⟨"finder"⟩,
        checkToActionAt f.ID ≠ warn ∧ checkToActionAt f.ID ≠ block) ∧
    Validate "; " ⟨namespaceValidator⟩ bareVm none none ⟨"finder"⟩ =
      .ok [⟨Valid, ValidationCompleted, "Validation completed successfully", ConditionTrue⟩,
        ⟨MappingRulesVerified, MappingRulesVerificationCompleted,
          "All mapping rules checks passed", ConditionTrue⟩] :=
  ⟨⟨rfl, rfl, by simp [namespaceValidator, silentValidator]⟩,
    (absent_collections "; " ⟨namespaceValidator⟩ bareVm none none ⟨"finder"⟩ rfl rfl).2.2
      (by simp [namespaceValidator, silentValidator])⟩


theorem tierMessages_append (a : action) (fs gs : List ValidationFailure) :
    tierMessages a (fs ++ gs) = tierMessages a fs ++ tierMessages a gs := by
  simp [tierMessages, tierFailures]

theorem ruleFailures_of_collections (V : Validator) (vm : Vm) (finder : TemplateFinder)
    (nics : List Nic) (das : List DiskAttachment)
    (hN : vm.Nics = some nics) (hD : vm.DiskAttachments = some das) :
    ruleFailures V vm finder =
      V.ValidateVM vm finder ++ V.ValidateNics nics ++ V.ValidateDiskAttachments das := by
  simp [ruleFailures, hN, hD]

theorem mappingFailures_of_collections (V : Validator) (vm : Vm) (m : OvirtMappings)
    (n : NamespacedName) (nics : List Nic) (das : List DiskAttachment)
    (hN : vm.Nics = some nics) (hD : vm.DiskAttachments = some das) :
    mappingFailures V vm (some m) (some n) =
      V.ValidateNetworkMapping nics m.NetworkMappings n.Namespace ++
        V.ValidateStorageMapping das m.StorageMappings m.DiskMappings := by
  simp [mappingFailures, hN, hD]

/-! ## C14: production order -/

/-- C14: for a VM with a NIC collection and a disk-attachment collection, `Validate`
returns as rule condition `processValidationFailures` applied to the failures of
`ValidateVM` followed by those of `ValidateNics` followed by those of
`ValidateDiskAttachments`, each in the order the validator returned them, and as mapping
condition `processMappingValidationFailures` applied to the failures of
`ValidateNetworkMapping` followed by those of `ValidateStorageMapping`. Hence the error
message and the warn message of the rule failures join the VM-level texts of the tier
first, then the NIC-level texts, then the disk-level texts. -/
theorem production_order (sep : String) (V : VirtualMachineImportValidator) (vm : Vm)
    (n : NamespacedName) (m : OvirtMappings) (finder : TemplateFinder)
    (nics : List Nic) (das : List DiskAttachment)
    (hN : vm.Nics = some nics) (hD : vm.DiskAttachments = some das) :
    Validate sep V vm (some n) (some m) finder =
      .ok [processMappingValidationFailures sep
            (V.Validator.ValidateNetworkMapping nics m.NetworkMappings n.Namespace ++
              V.Validator.ValidateStorageMapping das m.StorageMappings m.DiskMappings)
            (some n),
          processValidationFailures sep
            (V.Validator.ValidateVM vm finder ++ V.Validator.ValidateNics nics ++
              V.Validator.ValidateDiskAttachments das)
            (some n)] ∧
    (processFailures sep
        (V.Validator.ValidateVM vm finder ++ V.Validator.ValidateNics nics ++
          V.Validator.ValidateDiskAttachments das) (some n)).errorMessage =
      String.intercalate sep (dropEmptyHead
        (tierMessages block (V.Validator.ValidateVM vm finder) ++
          tierMessages block (V.Validator.ValidateNics nics) ++
          tierMessages block (V.Validator.ValidateDiskAttachments das))) ∧
    (processFailures sep
        (V.Validator.ValidateVM vm finder ++ V.Validator.ValidateNics nics ++
          V.Validator.ValidateDiskAttachments das) (some n)).warnMessage =
      String.intercalate sep (dropEmptyHead
        (tierMessages warn (V.Validator.ValidateVM vm finder) ++
          tierMessages warn (V.Validator.ValidateNics nics) ++
          tierMessages warn (V.Validator.ValidateDiskAttachments das))) := by
  have hp : pointersPresent vm (some n) (some m) := by simp [pointersPresent]
  refine ⟨?_, ?_, ?_⟩
  · rw [Validate_of_present sep V vm _ _ finder hp,
      mappingFailures_of_collections V.Validator vm m n nics das hN hD,
      ruleFailures_of_collections V.Validator vm finder nics das hN hD]
  · rw [processFailures_errorMessage, foldl_WithMessage_empty, tierMessages_append,
      tierMessages_append]
  · rw [processFailures_warnMessage, foldl_WithMessage_empty, tierMessages_append,
      tierMessages_append]

/-- C14 at a validator with one block-tier failure per check and a VM with one NIC and
one disk attachment: the texts appear in the order VM, NIC, disk, and network mapping,
storage mapping. -/
theorem production_order_witness :
    (sampleVm.Nics = some [⟨"nic1"⟩] ∧ sampleVm.DiskAttachments = some [⟨"disk1"⟩]) ∧
    Validate "; " ⟨orderedValidator⟩ sampleVm (some ⟨"ns", "import"⟩) (some emptyMappings)
        ⟨"finder"⟩ =
      .ok [⟨Valid, IncompleteMappingRules, "no target; no storage", ConditionFalse⟩,
        ⟨MappingRulesVerified, MappingRulesVerificationFailed,
          "vm is up; nic interface; sgio", ConditionFalse⟩] :=
  ⟨⟨rfl, rfl⟩,
    (production_order "; " ⟨orderedValidator⟩ sampleVm ⟨"ns", "import"⟩ emptyMappings
      ⟨"finder"⟩ [⟨"nic1"⟩] [⟨"disk1"⟩] rfl rfl).1⟩

/-! ## C15: identifiers without an entry in `checkToAction` -/

theorem checkToActionAt_of_unmapped (id : CheckID) (h : checkToAction id = none) :
    checkToActionAt id = log := by
  simp [checkToActionAt, h, log]

theorem tierFailures_mappedFailures (a : action) (ha : a ≠ log) (fs : List ValidationFailure) :
    tierFailures a (mappedFailures fs) = tierFailures a fs := by
  simp only [tierFailures, mappedFailures, List.filter_filter]
  congr 1
  funext f
  by_cases h : checkToActionAt f.ID = a
  · have hsome : (checkToAction f.ID).isSome = true := by
      cases hc : checkToAction f.ID with
      | none => exact absurd ((checkToActionAt_of_unmapped f.ID hc).symm.trans h).symm ha
      | some _ => rfl
    simp [h, hsome]
  · simp [h]

/-- C15: a failure whose CheckID has no entry in `checkToAction` is treated like a
log-tier failure: the lookup yields `log`, the loop logs it and leaves both messages as
they are, so for every failure list `processFailures` returns the same warn message and
the same error message as for the list without these failures, and a list of such
failures only yields the success condition of either builder. -/
theorem unmapped_is_log (sep : String) (fs : List ValidationFailure)
    (n : Option NamespacedName) :
    (∀ id : CheckID, checkToAction id = none → checkToActionAt id = log) ∧
    (∀ (st : ProcessState) (f : ValidationFailure), checkToAction f.ID = none →
      processFailure sep n st f =
        { st with logged := st.logged ++ [{ vmiCrName := n, failure := f }] }) ∧
    (processFailures sep fs n).warnMessage =
      (processFailures sep (mappedFailures fs) n).warnMessage ∧
    (processFailures sep fs n).errorMessage =
      (processFailures sep (mappedFailures fs) n).errorMessage ∧
    ((∀ f ∈ fs, checkToAction f.ID = none) →
      processValidationFailures sep fs n =
        ⟨MappingRulesVerified, MappingRulesVerificationCompleted,
          "All mapping rules checks passed", ConditionTrue⟩ ∧
      processMappingValidationFailures sep fs n =
        ⟨Valid, ValidationCompleted, "Validation completed successfully", ConditionTrue⟩) := by
  refine ⟨checkToActionAt_of_unmapped, ?_, ?_, ?_, ?_⟩
  · intro st f h
    exact processFailure_log sep n st f (checkToActionAt_of_unmapped f.ID h)
  · simp only [processFailures_warnMessage, tierMessages]
    rw [tierFailures_mappedFailures warn (by decide) fs]
  · simp only [processFailures_errorMessage, tierMessages]
    rw [tierFailures_mappedFailures block (by decide) fs]
  · intro h
    have hlog : ∀ f ∈ fs, checkToActionAt f.ID = log :=
      fun f hf => checkToActionAt_of_unmapped f.ID (h f hf)
    have he : (processFailures sep fs n).errorMessage = "" := by
      rw [processFailures_errorMessage,
        tierMessages_eq_nil_of_forall log block (by decide) fs hlog]
      rfl
    have hw : (processFailures sep fs n).warnMessage = "" := by
      rw [processFailures_warnMessage,
        tierMessages_eq_nil_of_forall log warn (by decide) fs hlog]
      rfl
    rw [processValidationFailures_of_empty sep fs n he hw,
      processMappingValidationFailures_of_empty sep fs n he hw]
    exact ⟨rfl, rfl⟩

/-- C15 at an identifier that is not a key of the table and at a list of one failure
with that identifier. -/
theorem unmapped_is_log_witness :
    (checkToAction (CheckID.other "vm.custom") = none ∧
      ∀ f ∈ [ValidationFailure.mk (CheckID.other "vm.custom") "custom check"],
        checkToAction f.ID = none) ∧
    (checkToActionAt (CheckID.other "vm.custom") = log ∧
      (processFailures "; " sampleUnmappedFailures none).errorMessage =
        (processFailures "; " (mappedFailures sampleUnmappedFailures) none).errorMessage ∧
      processValidationFailures "; " [⟨CheckID.other "vm.custom", "custom check"⟩] none =
        ⟨MappingRulesVerified, MappingRulesVerificationCompleted,
          "All mapping rules checks passed", ConditionTrue⟩ ∧
      processMappingValidationFailures "; " [⟨CheckID.other "vm.custom", "custom check"⟩]
          none =
        ⟨Valid, ValidationCompleted, "Validation completed successfully", ConditionTrue⟩) :=
  ⟨⟨rfl, by simp [checkToAction]⟩,
    (unmapped_is_log "; " [⟨CheckID.other "vm.custom", "custom check"⟩] none).1 _ rfl,
    (unmapped_is_log "; " sampleUnmappedFailures none).2.2.2.1,
    (unmapped_is_log "; " [⟨CheckID.other "vm.custom", "custom check"⟩] none).2.2.2.2
      (by simp [checkToAction])⟩


/-! ## The verdict of the condition builders -/

theorem processValidationFailures_Status_false_iff (sep : String)
    (fs : List ValidationFailure) (n : Option NamespacedName) :
    (processValidationFailures sep fs n).Status = ConditionFalse ↔
      (processFailures sep fs n).errorMessage ≠ "" := by
  by_cases he : (processFailures sep fs n).errorMessage = ""
  · by_cases hw : (processFailures sep fs n).warnMessage = ""
    · rw [processValidationFailures_of_empty sep fs n he hw]
      simp [NewCondition, he]
    · rw [processValidationFailures_of_warn sep fs n he hw]
      simp [NewCondition, he]
  · rw [processValidationFailures_of_error sep fs n he]
    simp [NewCondition, he]

theorem processMappingValidationFailures_Status_false_iff (sep : String)
    (fs : List ValidationFailure) (n : Option NamespacedName) :
    (processMappingValidationFailures sep fs n).Status = ConditionFalse ↔
      (processFailures sep fs n).errorMessage ≠ "" := by
  by_cases he : (processFailures sep fs n).errorMessage = ""
  · by_cases hw : (processFailures sep fs n).warnMessage = ""
    · rw [processMappingValidationFailures_of_empty sep fs n he hw]
      simp [NewCondition, he]
    · rw [processMappingValidationFailures_of_warn sep fs n he hw]
      simp [NewCondition, he]
  · rw [processMappingValidationFailures_of_error sep fs n he]
    simp [NewCondition, he]

theorem processFailures_errorMessage_ne_empty_append (sep : String)
    (fs gs : List ValidationFailure) (n : Option NamespacedName)
    (h : (processFailures sep fs n).errorMessage ≠ "") :
    (processFailures sep (fs ++ gs) n).errorMessage ≠ "" ∧
      (processFailures sep (gs ++ fs) n).errorMessage ≠ "" := by
  obtain ⟨f, hf, hb, hm⟩ := (processFailures_errorMessage_ne_empty sep fs n).mp h
  exact ⟨(processFailures_errorMessage_ne_empty sep _ n).mpr
      ⟨f, List.mem_append_left gs hf, hb, hm⟩,
    (processFailures_errorMessage_ne_empty sep _ n).mpr
      ⟨f, List.mem_append_right gs hf, hb, hm⟩⟩

/-! ## C16: the verdict invariant -/

/-- C16: for every failure list, the condition returned by `processValidationFailures`,
and likewise the one returned by `processMappingValidationFailures`, has Status False
if and only if the error message of `processFailures` is non-empty; then its reason is
the failed reason (MappingRulesVerificationFailed, resp. IncompleteMappingRules), and
otherwise its reason is the reported-warnings or the completed reason of the builder;
in every case its Message is a non-empty string. -/
theorem verdict_invariant (sep : String) (fs : List ValidationFailure)
    (n : Option NamespacedName) :
    (((processValidationFailures sep fs n).Status = ConditionFalse ↔
        (processFailures sep fs n).errorMessage ≠ "") ∧
      ((processFailures sep fs n).errorMessage ≠ "" →
        (processValidationFailures sep fs n).Reason = MappingRulesVerificationFailed) ∧
      ((processFailures sep fs n).errorMessage = "" →
        (processValidationFailures sep fs n).Reason =
            MappingRulesVerificationReportedWarnings ∨
          (processValidationFailures sep fs n).Reason = MappingRulesVerificationCompleted) ∧
      (processValidationFailures sep fs n).Message ≠ "") ∧
    (((processMappingValidationFailures sep fs n).Status = ConditionFalse ↔
        (processFailures sep fs n).errorMessage ≠ "") ∧
      ((processFailures sep fs n).errorMessage ≠ "" →
        (processMappingValidationFailures sep fs n).Reason = IncompleteMappingRules) ∧
      ((processFailures sep fs n).errorMessage = "" →
        (processMappingValidationFailures sep fs n).Reason = ValidationReportedWarnings ∨
          (processMappingValidationFailures sep fs n).Reason = ValidationCompleted) ∧
      (processMappingValidationFailures sep fs n).Message ≠ "") := by
  refine ⟨⟨processValidationFailures_Status_false_iff sep fs n, ?_, ?_, ?_⟩,
    ⟨processMappingValidationFailures_Status_false_iff sep fs n, ?_, ?_, ?_⟩⟩
  · intro he
    rw [processValidationFailures_of_error sep fs n he]
    rfl
  · intro he
    by_cases hw : (processFailures sep fs n).warnMessage = ""
    · rw [processValidationFailures_of_empty sep fs n he hw]
      exact Or.inr rfl
    · rw [processValidationFailures_of_warn sep fs n he hw]
      exact Or.inl rfl
  · by_cases he : (processFailures sep fs n).errorMessage = ""
    · by_cases hw : (processFailures sep fs n).warnMessage = ""
      · rw [processValidationFailures_of_empty sep fs n he hw]
        decide
      · rw [processValidationFailures_of_warn sep fs n he hw]
        exact hw
    · rw [processValidationFailures_of_error sep fs n he]
      exact he
  · intro he
    rw [processMappingValidationFailures_of_error sep fs n he]
    rfl
  · intro he
    by_cases hw : (processFailures sep fs n).warnMessage = ""
    · rw [processMappingValidationFailures_of_empty sep fs n he hw]
      exact Or.inr rfl
    · rw [processMappingValidationFailures_of_warn sep fs n he hw]
      exact Or.inl rfl
  · by_cases he : (processFailures sep fs n).errorMessage = ""
    · by_cases hw : (processFailures sep fs n).warnMessage = ""
      · rw [processMappingValidationFailures_of_empty sep fs n he hw]
        decide
      · rw [processMappingValidationFailures_of_warn sep fs n he hw]
        exact hw
    · rw [processMappingValidationFailures_of_error sep fs n he]
      exact he

/-- C16 at the sample rule failures, whose error message is non-empty, and at the
sample warn failures, whose error message is empty. -/
theorem verdict_invariant_witness :
    ((processFailures "; " sampleRuleFailures none).errorMessage ≠ "" ∧
      (processValidationFailures "; " sampleRuleFailures none).Reason =
        MappingRulesVerificationFailed) ∧
    ((processFailures "; " sampleWarnFailures none).errorMessage = "" ∧
      ((processMappingValidationFailures "; " sampleWarnFailures none).Reason =
          ValidationReportedWarnings ∨
        (processMappingValidationFailures "; " sampleWarnFailures none).Reason =
          ValidationCompleted)) :=
  ⟨⟨by decide, (verdict_invariant "; " sampleRuleFailures none).1.2.1 (by decide)⟩,
    ⟨by decide, (verdict_invariant "; " sampleWarnFailures none).2.2.2.1 (by decide)⟩⟩

/-! ## C17: a blocking verdict is monotone -/

/-- C17: for all failure lists `fs` and `gs`, if `processValidationFailures` returns
Status False for `fs` then it returns Status False for `fs ++ gs` and for `gs ++ fs`,
and the same holds for `processMappingValidationFailures`: further failures of any tier
never turn a False condition into a True one. -/
theorem blocking_monotone (sep : String) (fs gs : List ValidationFailure)
    (n : Option NamespacedName) :
    ((processValidationFailures sep fs n).Status = ConditionFalse →
      (processValidationFailures sep (fs ++ gs) n).Status = ConditionFalse ∧
        (processValidationFailures sep (gs ++ fs) n).Status = ConditionFalse) ∧
    ((processMappingValidationFailures sep fs n).Status = ConditionFalse →
      (processMappingValidationFailures sep (fs ++ gs) n).Status = ConditionFalse ∧
        (processMappingValidationFailures sep (gs ++ fs) n).Status = ConditionFalse) := by
  constructor
  · intro h
    rw [processValidationFailures_Status_false_iff] at h
    have h2 := processFailures_errorMessage_ne_empty_append sep fs gs n h
    exact ⟨(processValidationFailures_Status_false_iff sep _ n).mpr h2.1,
      (processValidationFailures_Status_false_iff sep _ n).mpr h2.2⟩
  · intro h
    rw [processMappingValidationFailures_Status_false_iff] at h
    have h2 := processFailures_errorMessage_ne_empty_append sep fs gs n h
    exact ⟨(processMappingValidationFailures_Status_false_iff sep _ n).mpr h2.1,
      (processMappingValidationFailures_Status_false_iff sep _ n).mpr h2.2⟩

/-- C17 at the blocking sample rule failures, extended by the sample warn failures on
either side. -/
theorem blocking_monotone_witness :
    (processValidationFailures "; " sampleRuleFailures none).Status = ConditionFalse ∧
    ((processValidationFailures "; " (sampleRuleFailures ++ sampleWarnFailures) none).Status =
        ConditionFalse ∧
      (processValidationFailures "; " (sampleWarnFailures ++ sampleRuleFailures) none).Status =
        ConditionFalse) :=
  ⟨by decide, (blocking_monotone "; " sampleRuleFailures sampleWarnFailures none).1 (by decide)⟩

end VmImportValidation
